import Mathlib

/-!
Verification of the Core+Core challenge sampling and deterministic
validation engine (`coreplus.rs`).

Strings are modelled as lists of Unicode characters (`List Char`).
Rust operates on UTF-8 byte indices; since every byte index the code
manipulates sits on a character boundary (indices only arise from
`find`, `starts_with` and the lengths of well-formed substrings, and
UTF-8 substring occurrences always start on character boundaries),
character indices are a faithful model.

Rust's `f32` score arithmetic only ever handles small integers
(100 and the deductions 40/25/15/8), on which `f32` is exact, so the
score is modelled as `Int`.
-/

set_option linter.unusedVariables false
set_option linter.unnecessarySimpa false

abbrev Str := List Char

/-- Unicode `White_Space` property, as used by Rust's `char::is_whitespace`. -/
def isRustWhitespace (c : Char) : Bool :=
  let n := c.toNat
  (9 ≤ n && n ≤ 13) || n == 32 || n == 0x85 || n == 0xA0 || n == 0x1680 ||
  (0x2000 ≤ n && n ≤ 0x200A) || n == 0x2028 || n == 0x2029 || n == 0x202F ||
  n == 0x205F || n == 0x3000

def trimStartL (s : Str) : Str := s.dropWhile isRustWhitespace

def trimEndL (s : Str) : Str := (s.reverse.dropWhile isRustWhitespace).reverse

/-- Rust `str::trim`. -/
def rustTrim (s : Str) : Str := trimEndL (trimStartL s)

/-- Does `s` start with `p`?  (Rust `str::starts_with`.) -/
def isPrefOf : Str → Str → Bool
  | [], _ => true
  | _ :: _, [] => false
  | a :: as, b :: bs => a == b && isPrefOf as bs

/-- Does `s` end with `p`?  (Rust `str::ends_with`.) -/
def isSufOf (p s : Str) : Bool := isPrefOf p.reverse s.reverse

/-- First index `≥ idx` at which `needle` occurs in the remaining text;
`findSubFrom needle t idx` scans `t`, which is the suffix of the full text
starting at absolute index `idx`, and returns the absolute index of the
first occurrence.  (Rust `str::find` on `&text[idx..]`, plus `idx`.) -/
def findSubFrom (needle : Str) : Str → Nat → Option Nat
  | [], idx => if isPrefOf needle [] then some idx else none
  | c :: rest, idx =>
    if isPrefOf needle (c :: rest) then some idx
    else findSubFrom needle rest (idx + 1)

/-- Rust `str::contains`. -/
def containsL (hay needle : Str) : Bool := (findSubFrom needle hay 0).isSome

/-- Rust `str::split(".+")`: split on leftmost, non-overlapping occurrences
of the two-character pattern `.+`. -/
def splitDotPlus : Str → List Str
  | [] => [[]]
  | '.' :: '+' :: t => [] :: splitDotPlus t
  | c :: t =>
    match splitDotPlus t with
    | [] => [[c]]
    | h :: r => (c :: h) :: r

/-- Rust `str::split(sep)` for a single-character separator. -/
def splitChar (sep : Char) : Str → List Str
  | [] => [[]]
  | c :: t =>
    if c == sep then [] :: splitChar sep t
    else
      match splitChar sep t with
      | [] => [[c]]
      | h :: r => (c :: h) :: r

/-- Scanner for `replaceSub`: `skip > 0` means we are still inside a
matched occurrence and must drop `skip` more characters before scanning
again. -/
def replaceSubGo (p0 : Char) (ptl r : Str) : Str → Nat → Str
  | [], _ => []
  | _ :: t, skip + 1 => replaceSubGo p0 ptl r t skip
  | c :: t, 0 =>
    if isPrefOf (p0 :: ptl) (c :: t) then r ++ replaceSubGo p0 ptl r t ptl.length
    else c :: replaceSubGo p0 ptl r t 0

/-- Rust `str::replace` for a non-empty pattern `p0 :: ptl`: replace every
leftmost, non-overlapping occurrence with `r`. -/
def replaceSub (p0 : Char) (ptl : Str) (r : Str) (s : Str) : Str :=
  replaceSubGo p0 ptl r s 0

/-- The sentence-terminal punctuation set used by `coreplus.rs`
(`。` `.` `!` `！` `?` `？`). -/
def isTerminalPunct (c : Char) : Bool :=
  c == '。' || c == '.' || c == '!' || c == '！' || c == '?' || c == '？'

/-- Rust `str::trim_end_matches` over the terminal punctuation set:
removes the whole maximal trailing run of matching characters. -/
def dropTrailingTerm (s : Str) : Str :=
  (s.reverse.dropWhile isTerminalPunct).reverse

/-- Embeds `trim_sentence_trailing_punct` from `coreplus.rs`:
`s.trim().trim_end_matches(terminal).trim()`. -/
def trim_sentence_trailing_punct (s : Str) : Str :=
  rustTrim (dropTrailingTerm (rustTrim s))

/-- The per-character normalization in `split_two_sentences`:
`!`, `！`, `?`, `？` become `。`; everything else is unchanged. -/
def normCh (c : Char) : Char :=
  if c == '!' || c == '！' || c == '?' || c == '？' then '。' else c

/-- Embeds `split_two_sentences` from `coreplus.rs`. -/
def split_two_sentences (text : Str) : Option (Str × Str) :=
  let canonical := (rustTrim text).map normCh
  let withoutTail := rustTrim (dropTrailingTerm canonical)
  let parts := ((splitChar '。' withoutTail).map rustTrim).filter (fun s => !s.isEmpty)
  match parts with
  | [a, b] => some (a, b)
  | _ => none

/-- Embeds `normalize_for_compare` from `coreplus.rs`: drop all whitespace. -/
def normalize_for_compare (s : Str) : Str :=
  s.filter (fun c => !isRustWhitespace c)

/-- Embeds `render_template_ab` from `coreplus.rs`:
`tpl.replace("{A}", a).replace("{B}", b)`. -/
def render_template_ab (tpl a b : Str) : Str :=
  replaceSub '{' ['B', '}'] b (replaceSub '{' ['A', '}'] a tpl)

/-!  ## The structural matcher (`simple_regex_like_match`)  -/

/-- The scan loop of `simple_regex_like_match`: walks the chunk list
carrying (`searchFrom`, `firstLiteralSeen`, `lastMatchEnd`), returning the
final `lastMatchEnd` on success. -/
def scanChunks (anchoredStart startsWild : Bool) (text : Str) :
    List Str → Nat → Bool → Nat → Option Nat
  | [], _, _, lastEnd => some lastEnd
  | part :: rest, searchFrom, firstSeen, lastEnd =>
    if part.isEmpty then
      scanChunks anchoredStart startsWild text rest searchFrom firstSeen lastEnd
    else if !firstSeen && anchoredStart && !startsWild then
      if isPrefOf part (text.drop searchFrom) then
        scanChunks anchoredStart startsWild text rest (searchFrom + part.length) true
          (searchFrom + part.length)
      else none
    else
      match findSubFrom part (text.drop searchFrom) searchFrom with
      | some pos =>
        scanChunks anchoredStart startsWild text rest (pos + part.length) true
          (pos + part.length)
      | none => none

/-- Embeds `simple_regex_like_match` from `coreplus.rs`. -/
def simple_regex_like_match (pattern text : Str) : Bool :=
  let p0 := rustTrim pattern
  let anchoredStart := isPrefOf ['^'] p0
  let anchoredEnd := isSufOf ['$'] p0
  let p1 := if anchoredStart then p0.drop 1 else p0
  let p2 := if anchoredEnd && !p1.isEmpty then p1.dropLast else p1
  let startsWild := isPrefOf ['.', '+'] p2
  let endsWild := isSufOf ['.', '+'] p2
  let parts := splitDotPlus p2
  if parts.all (fun x => x.isEmpty) then !text.isEmpty
  else
    match scanChunks anchoredStart startsWild text parts 0 false 0 with
    | none => false
    | some lastEnd =>
      if anchoredEnd && !endsWild then lastEnd == text.length else true

/-- Modelled from the spec (§4.3): the forward-scan cursor loop for the
chunks after the first — each chunk is located by first-occurrence forward
search from the cursor, which then advances to just past the match. -/
def specCursorScan (text : Str) : List Str → Nat → Option Nat
  | [], cursor => some cursor
  | chunk :: rest, cursor =>
    match findSubFrom chunk (text.drop cursor) cursor with
    | some pos => specCursorScan text rest (pos + chunk.length)
    | none => none

/-- Modelled from the spec (§4.3):  the restricted structural matcher as
described — strip anchors, split on `.+`, succeed on all-empty chunks iff
the text is non-empty, otherwise require the first non-empty chunk as an
exact head when start-anchored without a leading wildcard (first-occurrence
search otherwise), scan the remaining chunks forward from the cursor, and
check the cursor against the end of text when end-anchored without a
trailing wildcard. -/
def specStructMatch (pattern text : Str) : Bool :=
  let p0 := rustTrim pattern
  let aStart := isPrefOf ['^'] p0
  let aEnd := isSufOf ['$'] p0
  let p1 := if aStart then p0.drop 1 else p0
  let p2 := if aEnd && !p1.isEmpty then p1.dropLast else p1
  let wildStart := isPrefOf ['.', '+'] p2
  let wildEnd := isSufOf ['.', '+'] p2
  let chunks := (splitDotPlus p2).filter (fun c => !c.isEmpty)
  match chunks with
  | [] => !text.isEmpty
  | first :: rest =>
    let afterFirst :=
      if aStart && !wildStart then
        if isPrefOf first text then some first.length else none
      else
        match findSubFrom first text 0 with
        | some pos => some (pos + first.length)
        | none => none
    match afterFirst with
    | none => false
    | some cursor =>
      match specCursorScan text rest cursor with
      | none => false
      | some cEnd => if aEnd && !wildEnd then cEnd == text.length else true

/-!  ## Data model and static catalogs  -/

structure CorePlusSpecStep where
  relation : Str
  pattern_id : Str
  pattern_tpl : Str
  markers_zh : Str
  kind : Str
  level : Nat
  check_regex : Str
  strong_markers : List Str
  weak_markers : List Str
deriving DecidableEq

structure CorePlusProps where
  p1 : Str
  p2 : Str
  p3 : Str
deriving DecidableEq

structure CorePlusSpec where
  version : Str
  language : Str
  mode : Str
  chain_id : Str
  chain_step1_relation : Str
  chain_step2_relation : Str
  scene_id : Str
  scene_schema : Str
  step1 : CorePlusSpecStep
  step2 : CorePlusSpecStep
  seed : Str
  props : CorePlusProps
deriving DecidableEq

/-- Externally produced candidate item (`CorePlusGeneratedItem`); the
`challenge_zh` and `meta` fields are carried but never read by the
validator.  `meta` (a JSON value in the source) is modelled as opaque
text. -/
structure CorePlusGeneratedItem where
  seed_zh : Str
  challenge_zh : Str
  reference_answer_zh : Str
  meta : Str
deriving DecidableEq

structure PatternDef where
  id : Str
  level : Nat
  kind : Str
  tpl : Str
  markers_zh : Str
  strong_markers : List Str
  weak_markers : List Str
  seed_banned : List Str
  check_regex : Str
deriving DecidableEq

structure ChainPatternDef where
  id : Str
  step1 : Str
  step2 : Str
  scene_schema : Str
deriving DecidableEq

structure SceneDef where
  id : Str
  schema : Str
  p1 : Str
  p2 : Str
  p3 : Str
deriving DecidableEq

def VERSION : Str := "core_plus_core.zh.v2".data
def LANGUAGE : Str := "zh".data
def MODE : Str := "core_plus_core".data

def REL_ADDITION : Str := "ADDITION".data
def REL_CHOICE : Str := "CHOICE".data
def REL_CONTRAST : Str := "CONTRAST".data
def REL_CAUSE : Str := "CAUSE".data
def REL_RESULT : Str := "RESULT".data
def REL_CONDITION : Str := "CONDITION".data
def REL_TIME : Str := "TIME".data
def REL_PURPOSE : Str := "PURPOSE".data

/-- Mirror of the `pat!` record constructor. -/
def pat (id : String) (level : Nat) (kind tpl markers : String)
    (strong weak banned : List String) (rgx : String) : PatternDef :=
  ⟨id.data, level, kind.data, tpl.data, markers.data,
    strong.map (fun s => s.data), weak.map (fun s => s.data),
    banned.map (fun s => s.data), rgx.data⟩

/-- Mirror of the `scene!` record constructor. -/
def scene (id schema p1 p2 p3 : String) : SceneDef :=
  ⟨id.data, schema.data, p1.data, p2.data, p3.data⟩

def PATTERNS_CAUSE : List PatternDef := [
  pat "zh_pat__cause__yinwei_suoyi__pair__l1" 1 "PAIR" "因为{A}，所以{B}" "因为…所以…" ["因为", "所以"] [] ["因为", "所以"] "^因为.+，所以.+$",
  pat "zh_pat__cause__youyu_yinci__pair__l2" 2 "PAIR" "由于{A}，因此{B}" "由于…因此…" ["由于", "因此"] [] ["由于", "因此"] "^由于.+，因此.+$",
  pat "zh_pat__cause__jiran_jiu__pair__l2" 2 "PAIR" "既然{A}，就{B}" "既然…就…" ["既然"] ["就"] ["既然"] "^既然.+，就.+$",
  pat "zh_pat__cause__yinwei_only__single__l1" 1 "SINGLE" "因为{A}，{B}" "因为…" ["因为"] [] ["因为"] "^因为.+，.+$",
  pat "zh_pat__cause__youyu_only__single__l2" 2 "SINGLE" "由于{A}，{B}" "由于…" ["由于"] [] ["由于"] "^由于.+，.+$",
  pat "zh_pat__cause__zhengyinwei__single__l3" 3 "SINGLE" "正因为{A}，{B}" "正因为…" ["正因为"] [] ["正因为"] "^正因为.+，.+$",
  pat "zh_pat__cause__b_shiyinwei_a__single__l2" 2 "SINGLE" "{B}，是因为{A}" "…是因为…" ["是因为"] [] ["是因为"] "^.+，是因为.+$",
  pat "zh_pat__cause__zhisuoyi_shiyinwei__pair__l2" 2 "PAIR" "之所以{B}，是因为{A}" "之所以…是因为…" ["之所以", "是因为"] [] ["之所以", "是因为"] "^之所以.+，是因为.+$",
  pat "zh_pat__cause__yuanyin_zaiyu__single__l3" 3 "SINGLE" "{B}的原因在于{A}" "…的原因在于…" ["原因在于"] [] ["原因在于"] "^.+的原因在于.+$",
  pat "zh_pat__cause__daozhi__single__l2" 2 "SINGLE" "{A}，导致{B}" "导致…" ["导致"] [] ["导致"] "^.+，导致.+$",
  pat "zh_pat__cause__shide__single__l2" 2 "SINGLE" "{A}，使得{B}" "使得…" ["使得"] [] ["使得"] "^.+，使得.+$"]

def PATTERNS_RESULT : List PatternDef := [
  pat "zh_pat__result__suoyi__single__l1" 1 "SINGLE" "{A}，所以{B}" "所以…" ["所以"] [] ["所以"] "^.+，所以.+$",
  pat "zh_pat__result__yinci__single__l1" 1 "SINGLE" "{A}，因此{B}" "因此…" ["因此"] [] ["因此"] "^.+，因此.+$",
  pat "zh_pat__result__yiner__single__l2" 2 "SINGLE" "{A}，因而{B}" "因而…" ["因而"] [] ["因而"] "^.+，因而.+$",
  pat "zh_pat__result__yushi__single__l1" 1 "SINGLE" "{A}，于是{B}" "于是…" ["于是"] [] ["于是"] "^.+，于是.+$",
  pat "zh_pat__result__jieguo__single__l1" 1 "SINGLE" "{A}，结果{B}" "结果…" ["结果"] [] ["结果"] "^.+，结果.+$",
  pat "zh_pat__result__jieguo_shi__single__l2" 2 "SINGLE" "{A}，结果是{B}" "结果是…" ["结果是"] [] ["结果是"] "^.+，结果是.+$",
  pat "zh_pat__result__conger__single__l3" 3 "SINGLE" "{A}，从而{B}" "从而…" ["从而"] [] ["从而"] "^.+，从而.+$",
  pat "zh_pat__result__jin_er__single__l3" 3 "SINGLE" "{A}，进而{B}" "进而…" ["进而"] [] ["进而"] "^.+，进而.+$",
  pat "zh_pat__result__yizhiyu__single__l3" 3 "SINGLE" "{A}，以至于{B}" "以至于…" ["以至于"] [] ["以至于"] "^.+，以至于.+$"]

def PATTERNS_CONDITION : List PatternDef := [
  pat "zh_pat__cond__ruguo_jiu__pair__l1" 1 "PAIR" "如果{A}，就{B}" "如果…就…" ["如果"] ["就"] ["如果"] "^如果.+，就.+$",
  pat "zh_pat__cond__yaoshi_jiu__pair__l1" 1 "PAIR" "要是{A}，就{B}" "要是…就…" ["要是"] ["就"] ["要是"] "^要是.+，就.+$",
  pat "zh_pat__cond__jiaru_jiu__pair__l2" 2 "PAIR" "假如{A}，就{B}" "假如…就…" ["假如"] ["就"] ["假如"] "^假如.+，就.+$",
  pat "zh_pat__cond__zhiyao_jiu__pair__l1" 1 "PAIR" "只要{A}，就{B}" "只要…就…" ["只要"] ["就"] ["只要"] "^只要.+，就.+$",
  pat "zh_pat__cond__zhiyou_cai__pair__l2" 2 "PAIR" "只有{A}，才{B}" "只有…才…" ["只有"] ["才"] ["只有"] "^只有.+，才.+$",
  pat "zh_pat__cond__chufei_fouze__pair__l2" 2 "PAIR" "除非{A}，否则{B}" "除非…否则…" ["除非", "否则"] [] ["除非", "否则"] "^除非.+，否则.+$",
  pat "zh_pat__cond__a_dehua_b__single__l2" 2 "SINGLE" "{A}的话，{B}" "…的话…" ["的话"] [] ["的话"] "^.+的话，.+$",
  pat "zh_pat__cond__fouze__single__l2" 2 "SINGLE" "{A}，否则{B}" "否则…" ["否则"] [] ["否则"] "^.+，否则.+$",
  pat "zh_pat__cond__qingkuangxia__single__l3" 3 "SINGLE" "在{A}的情况下，{B}" "在…的情况下…" ["情况下"] [] ["情况下"] "^在.+的情况下，.+$"]

def PATTERNS_CONTRAST : List PatternDef := [
  pat "zh_pat__contrast__suiran_danshi__pair__l1" 1 "PAIR" "虽然{A}，但是{B}" "虽然…但是…" ["虽然", "但是"] [] ["虽然", "但是"] "^虽然.+，但是.+$",
  pat "zh_pat__contrast__suiran_dan__pair__l2" 2 "PAIR" "虽然{A}，但{B}" "虽然…但…" ["虽然"] ["但"] ["虽然"] "^虽然.+，但.+$",
  pat "zh_pat__contrast__jinguan_dan__pair__l2" 2 "PAIR" "尽管{A}，但{B}" "尽管…但…" ["尽管"] ["但"] ["尽管"] "^尽管.+，但.+$",
  pat "zh_pat__contrast__jinguan_rengran__pair__l3" 3 "PAIR" "尽管{A}，仍然{B}" "尽管…仍然…" ["尽管", "仍然"] [] ["尽管", "仍然"] "^尽管.+，仍然.+$",
  pat "zh_pat__contrast__a_buguo_b__single__l1" 1 "SINGLE" "{A}，不过{B}" "不过…" ["不过"] [] ["不过"] "^.+，不过.+$",
  pat "zh_pat__contrast__a_keshi_b__single__l1" 1 "SINGLE" "{A}，可是{B}" "可是…" ["可是"] [] ["可是"] "^.+，可是.+$",
  pat "zh_pat__contrast__a_raner_b__single__l2" 2 "SINGLE" "{A}，然而{B}" "然而…" ["然而"] [] ["然而"] "^.+，然而.+$",
  pat "zh_pat__contrast__a_que_b__single__l2" 2 "SINGLE" "{A}，却{B}" "却…" ["却"] [] ["却"] "^.+，却.+$",
  pat "zh_pat__contrast__a_faner_b__single__l3" 3 "SINGLE" "{A}，反而{B}" "反而…" ["反而"] [] ["反而"] "^.+，反而.+$",
  pat "zh_pat__contrast__biaomianshang_qishi__pair__l3" 3 "PAIR" "表面上{A}，其实{B}" "表面上…其实…" ["表面上", "其实"] [] ["表面上", "其实"] "^表面上.+，其实.+$",
  pat "zh_pat__contrast__yifangmian_lingyifangmian__pair__l3" 3 "PAIR" "一方面{A}，另一方面{B}" "一方面…另一方面…" ["一方面", "另一方面"] [] ["一方面", "另一方面"] "^一方面.+，另一方面.+$"]

def PATTERNS_TIME : List PatternDef := [
  pat "zh_pat__time__dang_shi__single__l1" 1 "SINGLE" "当{A}的时候，{B}" "当…的时候…" ["当"] [] ["当"] "^当.+的时候，.+$",
  pat "zh_pat__time__zai_shi__single__l2" 2 "SINGLE" "在{A}的时候，{B}" "在…的时候…" ["在"] [] [] "^在.+的时候，.+$",
  pat "zh_pat__time__a_yihou_b__single__l1" 1 "SINGLE" "{A}以后，{B}" "…以后…" ["以后"] [] ["以后"] "^.+以后，.+$",
  pat "zh_pat__time__a_zhihou_b__single__l1" 1 "SINGLE" "{A}之后，{B}" "…之后…" ["之后"] [] ["之后"] "^.+之后，.+$",
  pat "zh_pat__time__a_zhiqian_b__single__l1" 1 "SINGLE" "{A}之前，{B}" "…之前…" ["之前"] [] ["之前"] "^.+之前，.+$",
  pat "zh_pat__time__cong_kaishi__single__l2" 2 "SINGLE" "从{A}开始，{B}" "从…开始…" ["开始"] [] ["开始"] "^从.+开始，.+$",
  pat "zh_pat__time__zicong_yihou__single__l3" 3 "SINGLE" "自从{A}以后，{B}" "自从…以后…" ["自从", "以后"] [] ["自从", "以后"] "^自从.+以后，.+$",
  pat "zh_pat__time__suizhe__single__l3" 3 "SINGLE" "随着{A}，{B}" "随着…" ["随着"] [] ["随着"] "^随着.+，.+$",
  pat "zh_pat__time__meidang__single__l3" 3 "SINGLE" "每当{A}，{B}" "每当…" ["每当"] [] ["每当"] "^每当.+，.+$"]

def PATTERNS_PURPOSE : List PatternDef := [
  pat "zh_pat__purpose__weile__single__l1" 1 "SINGLE" "为了{B}，{A}" "为了…" ["为了"] [] ["为了"] "^为了.+，.+$",
  pat "zh_pat__purpose__a_weile_b__single__l1" 1 "SINGLE" "{A}，为了{B}" "…为了…" ["为了"] [] ["为了"] "^.+，为了.+$",
  pat "zh_pat__purpose__yibian__single__l2" 2 "SINGLE" "{A}，以便{B}" "以便…" ["以便"] [] ["以便"] "^.+，以便.+$",
  pat "zh_pat__purpose__haorang__single__l2" 2 "SINGLE" "{A}，好让{B}" "好让…" ["好让"] [] ["好让"] "^.+，好让.+$",
  pat "zh_pat__purpose__weideshi__single__l2" 2 "SINGLE" "{A}，为的是{B}" "为的是…" ["为的是"] [] ["为的是"] "^.+，为的是.+$",
  pat "zh_pat__purpose__mian_de__single__l3" 3 "SINGLE" "{A}，免得{B}" "免得…" ["免得"] [] ["免得"] "^.+，免得.+$",
  pat "zh_pat__purpose__yimian__single__l3" 3 "SINGLE" "{A}，以免{B}" "以免…" ["以免"] [] ["以免"] "^.+，以免.+$",
  pat "zh_pat__purpose__weib_qijian__single__l3" 3 "SINGLE" "为{B}起见，{A}" "为…起见…" ["起见"] [] ["起见"] "^为.+起见，.+$"]

def PATTERNS_ADDITION : List PatternDef := [
  pat "zh_pat__add__budan_erqie__pair__l2" 2 "PAIR" "不但{A}，而且{B}" "不但…而且…" ["不但", "而且"] [] ["不但", "而且"] "^不但.+，而且.+$",
  pat "zh_pat__add__buji_hai__pair__l1" 1 "PAIR" "不仅{A}，还{B}" "不仅…还…" ["不仅"] ["还"] ["不仅"] "^不仅.+，还.+$",
  pat "zh_pat__add__a_erqie_b__single__l1" 1 "SINGLE" "{A}，而且{B}" "而且…" ["而且"] [] ["而且"] "^.+，而且.+$",
  pat "zh_pat__add__a_bingqie_b__single__l2" 2 "SINGLE" "{A}，并且{B}" "并且…" ["并且"] [] ["并且"] "^.+，并且.+$",
  pat "zh_pat__add__a_tongshi_b__single__l2" 2 "SINGLE" "{A}，同时{B}" "同时…" ["同时"] [] ["同时"] "^.+，同时.+$",
  pat "zh_pat__add__a_yebing_b__single__l1" 1 "SINGLE" "{A}，也{B}" "也…" [] ["也"] [] "^.+，也.+$",
  pat "zh_pat__add__chule_hai__pair__l3" 3 "PAIR" "除了{A}以外，还{B}" "除了…以外，还…" ["除了"] ["还"] ["除了"] "^除了.+以外，还.+$"]

def PATTERNS_CHOICE : List PatternDef := [
  pat "zh_pat__choice__yaome_yaome__pair__l1" 1 "PAIR" "要么{A}，要么{B}" "要么…要么…" ["要么"] [] ["要么"] "^要么.+，要么.+$",
  pat "zh_pat__choice__huozhe_huozhe__pair__l2" 2 "PAIR" "或者{A}，或者{B}" "或者…或者…" ["或者"] [] ["或者"] "^或者.+，或者.+$",
  pat "zh_pat__choice__bushi_jiushi__pair__l2" 2 "PAIR" "不是{A}，就是{B}" "不是…就是…" ["不是", "就是"] [] ["不是", "就是"] "^不是.+，就是.+$",
  pat "zh_pat__choice__a_huozhe_b__single__l1" 1 "SINGLE" "{A}，或者{B}" "或者…" ["或者"] [] ["或者"] "^.+，或者.+$",
  pat "zh_pat__choice__yuqi_buru__pair__l3" 3 "PAIR" "与其{A}，不如{B}" "与其…不如…" ["与其", "不如"] [] ["与其", "不如"] "^与其.+，不如.+$",
  pat "zh_pat__choice__ningke_yebu__pair__l3" 3 "PAIR" "宁可{A}，也不{B}" "宁可…也不…" ["宁可"] ["也不"] ["宁可"] "^宁可.+，也不.+$"]

def CHAIN_PATTERNS : List ChainPatternDef := [
  ⟨"zh_chain__cause_to_result__v1".data, REL_CAUSE, REL_RESULT, "reason_outcome_followup".data⟩,
  ⟨"zh_chain__condition_to_result__v1".data, REL_CONDITION, REL_RESULT, "condition_outcome_followup".data⟩,
  ⟨"zh_chain__time_to_result__v1".data, REL_TIME, REL_RESULT, "time_event_outcome".data⟩,
  ⟨"zh_chain__contrast_to_result__v1".data, REL_CONTRAST, REL_RESULT, "expectation_actual_consequence".data⟩,
  ⟨"zh_chain__choice_to_condition__v1".data, REL_CHOICE, REL_CONDITION, "optionA_optionB_then_rule".data⟩,
  ⟨"zh_chain__addition_to_result__v1".data, REL_ADDITION, REL_RESULT, "fact1_fact2_inference".data⟩,
  ⟨"zh_chain__purpose_to_result__v1".data, REL_PURPOSE, REL_RESULT, "action_goal_effect".data⟩,
  ⟨"zh_chain__time_to_contrast__v1".data, REL_TIME, REL_CONTRAST, "time_then_now_contrast".data⟩,
  ⟨"zh_chain__condition_to_contrast__v1".data, REL_CONDITION, REL_CONTRAST, "condition_expected_surprise".data⟩]

def SCENES : List SceneDef := [
  scene "zh_scene__study_sleep__v1" "reason_outcome_followup" "我没睡够" "我还是把笔记整理完了" "第二天上课更轻松了",
  scene "zh_scene__work_wifi__v1" "reason_outcome_followup" "网速不稳" "会议一直断线" "我改用手机热点才顺利讲完",
  scene "zh_scene__travel_rain__v1" "reason_outcome_followup" "下雨了" "我没去远处" "我就在附近的小店慢慢逛",
  scene "zh_scene__lab_sample__v1" "reason_outcome_followup" "样品太湿" "读数不稳定" "我先烘干再重新测了一次",
  scene "zh_scene__daily_no_umbrella__v1" "reason_outcome_followup" "我忘带伞" "衣服被淋湿了" "回家后我立刻换了衣服",
  scene "zh_scene__tech_update_lag__v1" "reason_outcome_followup" "系统更新后卡顿" "我打开应用变慢了" "我清理缓存后顺畅很多",
  scene "zh_scene__kitchen_salt__v1" "reason_outcome_followup" "我盐放多了" "汤太咸了" "我加了点水才勉强能喝",
  scene "zh_scene__bus_traffic__v1" "reason_outcome_followup" "路上堵车" "我到得有点晚" "我下次会早点出门",
  scene "zh_scene__printer_paper__v1" "reason_outcome_followup" "打印机卡纸" "文件没打印出来" "我把纸重新放好再试了一次",
  scene "zh_scene__phone_low_battery__v1" "reason_outcome_followup" "手机电量太低" "导航一直提醒省电模式" "我找了个地方先充电",
  scene "zh_scene__alarm__v1" "condition_outcome_followup" "我不设闹钟" "早上就起不来" "我只好一路小跑赶时间",
  scene "zh_scene__backup__v1" "condition_outcome_followup" "我不备份文件" "电脑一出问题就会丢资料" "我现在每周都备份一次",
  scene "zh_scene__umbrella__v1" "condition_outcome_followup" "我出门不带伞" "遇到下雨就会很狼狈" "我开始把伞放在包里",
  scene "zh_scene__practice__v1" "condition_outcome_followup" "我不提前练习" "上台就容易紧张" "我后来每天都练十分钟",
  scene "zh_scene__sleep_early__v1" "condition_outcome_followup" "我晚上早点睡" "第二天精神就更好" "我效率也提高了",
  scene "zh_scene__save_password__v1" "condition_outcome_followup" "我不保存密码" "每次登录都要重输" "我干脆用密码管理器",
  scene "zh_scene__check_weather__v1" "condition_outcome_followup" "我不看天气预报" "行程就容易被打乱" "我现在出门前都会看一眼",
  scene "zh_scene__write_plan__v1" "condition_outcome_followup" "我不列计划" "事情就会越堆越多" "我开始每天写待办清单",
  scene "zh_scene__after_class__v1" "time_event_outcome" "我下课了" "我去图书馆复习" "学习效率提高了",
  scene "zh_scene__arrive_home__v1" "time_event_outcome" "我到家了" "我先洗个澡" "整个人放松多了",
  scene "zh_scene__finish_meeting__v1" "time_event_outcome" "会议结束了" "我把要点整理成文档" "同事更容易跟进",
  scene "zh_scene__finish_experiment__v1" "time_event_outcome" "实验做完了" "我马上记录数据" "后面分析更顺利",
  scene "zh_scene__lunch_time__v1" "time_event_outcome" "中午到了" "我出去吃点东西" "下午不那么饿了",
  scene "zh_scene__weekend_start__v1" "time_event_outcome" "周末开始了" "我把房间收拾了一下" "住起来更舒服了",
  scene "zh_scene__project_deadline__v1" "time_event_outcome" "截止日期到了" "我把最后一版提交上去" "我终于松了口气",
  scene "zh_scene__rain_stop__v1" "time_event_outcome" "雨停了" "我出去走走" "心情好了一点",
  scene "zh_scene__expect_easy_but_hard__v1" "expectation_actual_consequence" "我以为今天会很顺利" "事情却特别多" "我忙到很晚才结束",
  scene "zh_scene__expect_fast_but_slow__v1" "expectation_actual_consequence" "我以为十分钟就能搞定" "过程却拖了很久" "我后面的安排被迫改了",
  scene "zh_scene__expect_quiet_but_noisy__v1" "expectation_actual_consequence" "我以为咖啡店会很安静" "里面却很吵" "我只好换个地方",
  scene "zh_scene__expect_cheaper_but_expensive__v1" "expectation_actual_consequence" "我以为修理不会太贵" "费用却超出预算" "我只能先做最必要的部分",
  scene "zh_scene__expect_ready_but_missing__v1" "expectation_actual_consequence" "我以为资料都准备好了" "关键文件却找不到" "我只好重新整理一遍",
  scene "zh_scene__expect_good_weather_but_rain__v1" "expectation_actual_consequence" "我以为今天不会下雨" "外面却突然变天" "我被淋得有点狼狈",
  scene "zh_scene__option_cook_or_takeout__v1" "optionA_optionB_then_rule" "我可以自己做饭" "我也可以点外卖" "如果我点外卖，就要多等一会儿",
  scene "zh_scene__option_walk_or_bus__v1" "optionA_optionB_then_rule" "我可以走路过去" "我也可以坐公交" "如果我坐公交，就得看发车时间",
  scene "zh_scene__option_train_or_taxi__v1" "optionA_optionB_then_rule" "我可以坐地铁" "我也可以打车" "如果我打车，就会多花一些钱",
  scene "zh_scene__option_now_or_later__v1" "optionA_optionB_then_rule" "我可以现在就开始" "我也可以拖到明天" "如果我拖到明天，就会更赶",
  scene "zh_scene__two_facts_tired__v1" "fact1_fact2_inference" "我昨晚睡得很晚" "今天还要早起" "我整天都很困",
  scene "zh_scene__two_facts_busy__v1" "fact1_fact2_inference" "我这周任务很多" "每天还要开好几场会" "我几乎没有休息时间",
  scene "zh_scene__two_facts_save_time__v1" "fact1_fact2_inference" "我把路线提前查好了" "出门前也准备齐东西" "路上省了不少时间",
  scene "zh_scene__two_facts_more_focus__v1" "fact1_fact2_inference" "我把手机调成静音" "我还关掉了消息提醒" "我更能专心做事",
  scene "zh_scene__two_facts_cost__v1" "fact1_fact2_inference" "我买了不少食材" "还买了很多零食" "这个月开销变大了",
  scene "zh_scene__leave_early__v1" "action_goal_effect" "我提前半小时出门" "赶上早班车" "我没有迟到",
  scene "zh_scene__write_outline__v1" "action_goal_effect" "我先写了提纲" "讲清楚重点" "汇报更有条理",
  scene "zh_scene__dry_sample__v1" "action_goal_effect" "我先把样品烘干" "读数更稳定" "数据更可靠",
  scene "zh_scene__clear_cache__v1" "action_goal_effect" "我清理了缓存" "系统运行更顺畅" "应用打开更快",
  scene "zh_scene__prepare_questions__v1" "action_goal_effect" "我提前准备了问题清单" "沟通更高效" "会议时间缩短了",
  scene "zh_scene__then_now_study__v1" "time_then_now_contrast" "以前我复习很随意" "我经常记不住重点" "现在我却更有方法了",
  scene "zh_scene__then_now_sleep__v1" "time_then_now_contrast" "以前我总是熬夜" "我白天很没精神" "现在我反而睡得更规律",
  scene "zh_scene__then_now_workflow__v1" "time_then_now_contrast" "刚开始我不太会用这个工具" "我做事很慢" "后来我却越来越熟练",
  scene "zh_scene__prepared_but_mistake__v1" "condition_expected_surprise" "我提前准备了" "事情本来应该很顺利" "结果却还是出了差错",
  scene "zh_scene__leave_early_but_late__v1" "condition_expected_surprise" "我出门很早" "我本来应该不会迟到" "路上却偏偏堵得厉害",
  scene "zh_scene__practice_but_nervous__v1" "condition_expected_surprise" "我练习了很多次" "我本来应该很自信" "上台却还是有点紧张"]

def patterns_for_relation (relation : Str) : List PatternDef :=
  if relation == REL_CAUSE then PATTERNS_CAUSE
  else if relation == REL_RESULT then PATTERNS_RESULT
  else if relation == REL_CONDITION then PATTERNS_CONDITION
  else if relation == REL_CONTRAST then PATTERNS_CONTRAST
  else if relation == REL_TIME then PATTERNS_TIME
  else if relation == REL_PURPOSE then PATTERNS_PURPOSE
  else if relation == REL_ADDITION then PATTERNS_ADDITION
  else if relation == REL_CHOICE then PATTERNS_CHOICE
  else []

/-!  ## Sampler  -/

/-- ASCII lowercasing plus the one non-ASCII mapping (Kelvin sign → k)
that can affect recognition of an "hsk…" prefix; Rust `to_lowercase` is
full Unicode, but its other mappings never produce the letters h/s/k or
ASCII digits relevant here. -/
def lowerChar (c : Char) : Char :=
  if 'A' ≤ c && c ≤ 'Z' then Char.ofNat (c.toNat + 32)
  else if c = Char.ofNat 0x212A then 'k'
  else c

def isAsciiDigit (c : Char) : Bool := '0' ≤ c && c ≤ '9'

/-- The digit loop of Rust `u8::from_str`: checked multiply/add, failing
as soon as the accumulated value would exceed 255 or a non-digit is hit. -/
def decDigits : Str → Nat → Option Nat
  | [], acc => some acc
  | c :: t, acc =>
    if isAsciiDigit c then
      let v := acc * 10 + (c.toNat - 48)
      if v ≤ 255 then decDigits t v else none
    else none

/-- Rust `str::parse::<u8>`: optional leading `+`, then one or more ASCII
digits, value at most 255. -/
def parseU8 (s : Str) : Option Nat :=
  match s with
  | [] => none
  | c :: rest =>
    if c = '+' then (if rest.isEmpty then none else decDigits rest 0)
    else decDigits (c :: rest) 0

/-- Rust `str::strip_prefix` with the literal pattern `hsk`. -/
def stripHsk (s : Str) : Option Str :=
  match s with
  | 'h' :: 's' :: 'k' :: rest => some rest
  | _ => none

/-- Embeds `difficulty_to_target_level` from `coreplus.rs`. -/
def difficulty_to_target_level (difficulty : Str) : Nat :=
  let norm := (rustTrim difficulty).map lowerChar
  let n := match stripHsk norm with
    | some rest => (parseU8 rest).getD 3
    | none => 3
  if n ≤ 2 then 1 else if n ≤ 4 then 2 else 3

/-- Embeds `chain_matches_difficulty` from `coreplus.rs`. -/
def chain_matches_difficulty (chain : ChainPatternDef) (targetLevelMax : Nat) : Bool :=
  if targetLevelMax ≤ 1 then
    chain.scene_schema == "reason_outcome_followup".data ||
    chain.scene_schema == "condition_outcome_followup".data ||
    chain.scene_schema == "time_event_outcome".data ||
    chain.scene_schema == "fact1_fact2_inference".data ||
    chain.scene_schema == "action_goal_effect".data
  else if targetLevelMax == 2 then
    !(chain.scene_schema == "condition_expected_surprise".data)
  else
    true

def level3_plus_tokens : List Str :=
  ["预算", "关键", "缓存", "样品", "实验", "汇报", "沟通", "效率", "截止", "省电模式",
   "热点", "发车时间", "提纲", "数据", "分析", "资料", "被迫", "偏偏", "狼狈",
   "越来越熟练"].map (fun s => s.data)

def level2_plus_tokens : List Str :=
  ["整理", "路线", "静音", "消息提醒", "待办", "拖到明天", "几乎没有休息时间",
   "后面的安排", "干脆", "省了不少时间", "只好"].map (fun s => s.data)

/-- Embeds `scene_matches_difficulty` from `coreplus.rs`. -/
def scene_matches_difficulty (p1 p2 p3 : Str) (targetLevelMax : Nat) : Bool :=
  let c1 := p1.length
  let c2 := p2.length
  let c3 := p3.length
  let total := c1 + c2 + c3
  let joined := p1 ++ p2 ++ p3
  if targetLevelMax ≤ 1 then
    !(c1 > 12 || c2 > 12 || c3 > 12 || total > 32) &&
    !(level3_plus_tokens.any (fun t => containsL joined t)) &&
    !(level2_plus_tokens.any (fun t => containsL joined t))
  else if targetLevelMax == 2 then
    !(c1 > 16 || c2 > 16 || c3 > 16 || total > 44) &&
    !(level3_plus_tokens.any (fun t => containsL joined t))
  else
    true

/-- Embeds `contains_any` from `coreplus.rs` (the `HashSet` of banned seed
tokens is modelled as the concatenated list; only `any`-membership is
used, so duplicates are irrelevant). -/
def contains_any (text : Str) (tokens : List Str) : Bool :=
  tokens.any (fun t => !t.isEmpty && containsL text t)

/-- Embeds `contains_any_marker` from `coreplus.rs`. -/
def contains_any_marker (text : Str) (markers : List Str) : Bool :=
  markers.any (fun m => !m.isEmpty && containsL text m)

/-- Embeds `to_spec_step` from `coreplus.rs`. -/
def to_spec_step (relation : Str) (p : PatternDef) : CorePlusSpecStep :=
  ⟨relation, p.id, p.tpl, p.markers_zh, p.kind, p.level, p.check_regex,
    p.strong_markers, p.weak_markers⟩

/-- The `Ok(CorePlusSpec { .. })` assembly at the end of a successful
sampling iteration. -/
def mkSpec (chain : ChainPatternDef) (q1 q2 : PatternDef) (sc : SceneDef) : CorePlusSpec :=
  ⟨VERSION, LANGUAGE, MODE, chain.id, chain.step1, chain.step2, sc.id, sc.schema,
    to_spec_step chain.step1 q1, to_spec_step chain.step2 q2, sc.p1,
    ⟨sc.p1, sc.p2, sc.p3⟩⟩

/-- One tuple of random draws for a sampling iteration: indices choosing
the chain, the two patterns and the scene (each used modulo the pool
size, which models `SliceRandom::choose` surjectively). -/
structure DrawChoice where
  chainIdx : Nat
  pat1Idx : Nat
  pat2Idx : Nat
  sceneIdx : Nat
deriving DecidableEq

def dummyPat : PatternDef := pat "" 0 "" "" "" [] [] [] ""

def dummyScene : SceneDef := scene "" "" "" "" ""

/-- One iteration of the sampling loop in `sample_core_plus_core_spec`;
`none` means the iteration was rejected and the loop continues.  The
`CHAIN_PATTERNS.get?` fallback models the "No chain patterns configured"
error path, unreachable for the non-empty static catalog. -/
def tryOnce (targetLevelMax : Nat) (dr : DrawChoice) : Option CorePlusSpec :=
  match CHAIN_PATTERNS.get? (dr.chainIdx % CHAIN_PATTERNS.length) with
  | none => none
  | some chain =>
    if !chain_matches_difficulty chain targetLevelMax then none
    else
      let step1Pool := (patterns_for_relation chain.step1).filter
        (fun p => decide (p.level ≤ targetLevelMax))
      let step2Pool := (patterns_for_relation chain.step2).filter
        (fun p => decide (p.level ≤ targetLevelMax))
      if step1Pool.isEmpty || step2Pool.isEmpty then none
      else
        let step1Pat := step1Pool.getD (dr.pat1Idx % step1Pool.length) dummyPat
        let step2Pat := step2Pool.getD (dr.pat2Idx % step2Pool.length) dummyPat
        let scenePool := SCENES.filter (fun s => s.schema == chain.scene_schema)
        if scenePool.isEmpty then none
        else
          let sc := scenePool.getD (dr.sceneIdx % scenePool.length) dummyScene
          if !scene_matches_difficulty sc.p1 sc.p2 sc.p3 targetLevelMax then none
          else
            let banned := step1Pat.seed_banned ++ step2Pat.seed_banned
            if contains_any sc.p1 banned then none
            else some (mkSpec chain step1Pat step2Pat sc)

def sampleAux (targetLevelMax : Nat) : List DrawChoice → Option CorePlusSpec
  | [] => none
  | dr :: rest =>
    match tryOnce targetLevelMax dr with
    | some spec => some spec
    | none => sampleAux targetLevelMax rest

/-- Embeds `sample_core_plus_core_spec` from `coreplus.rs`, with the
random draws injected as an explicit oracle list (`max_tries` is the
length of `draws`); `none` models the `SAMPLE_COREPLUSCORE_SPEC` exhausted
error. -/
def sample_core_plus_core_spec (difficulty : Str) (draws : List DrawChoice) :
    Option CorePlusSpec :=
  sampleAux (difficulty_to_target_level difficulty) draws

/-!  ## Renderer, validator, scorer  -/

/-- Embeds `build_expected_reference_answer` from `coreplus.rs`. -/
def build_expected_reference_answer (spec : CorePlusSpec) : Str :=
  let s1 := render_template_ab spec.step1.pattern_tpl spec.props.p1 spec.props.p2
  let s2 := render_template_ab spec.step2.pattern_tpl spec.props.p2 spec.props.p3
  trim_sentence_trailing_punct s1 ++ "。".data ++ trim_sentence_trailing_punct s2

/-- The first strong marker of the step that is non-empty and missing
from the sentence (the early-return loop shared by `validate_sentence`
and `validate_sentence_pattern_only`). -/
def firstMissingStrong : List Str → Str → Option Str
  | [], _ => none
  | m :: rest, s =>
    if !m.isEmpty && !containsL s m then some m
    else firstMissingStrong rest s

/-- Embeds `validate_sentence` from `coreplus.rs`; `none` is `Ok(())`,
`some msg` is `Err(msg)`. -/
def validate_sentence (step : CorePlusSpecStep) (sentence expectedA expectedB : Str) :
    Option Str :=
  if !containsL sentence expectedA then
    some ("缺少命题片段A：".data ++ expectedA)
  else if !containsL sentence expectedB then
    some ("缺少命题片段B：".data ++ expectedB)
  else
    match firstMissingStrong step.strong_markers sentence with
    | some m => some ("缺少强标记：".data ++ m)
    | none =>
      if !simple_regex_like_match step.check_regex sentence then
        some ("句式不匹配模式 ".data ++ step.markers_zh)
      else none

/-- Embeds `validate_sentence_pattern_only` from `coreplus.rs`. -/
def validate_sentence_pattern_only (step : CorePlusSpecStep) (sentence : Str) :
    Option Str :=
  match firstMissingStrong step.strong_markers sentence with
  | some m => some ("缺少强标记：".data ++ m)
  | none =>
    if !simple_regex_like_match step.check_regex sentence then
      some ("句式不匹配模式 ".data ++ step.markers_zh)
    else none

/-- Embeds `validate_generated_item` from `coreplus.rs`; `none` is `Ok`,
`some msg` is the `SchemaViolation` message. -/
def validate_generated_item (spec : CorePlusSpec) (item : CorePlusGeneratedItem) :
    Option Str :=
  if !(rustTrim item.seed_zh == rustTrim spec.seed) then
    some "seed_zh does not match SPEC.seed exactly".data
  else
    match split_two_sentences item.reference_answer_zh with
    | none => some "reference_answer_zh must contain exactly two sentences".data
    | some (gotS1, gotS2) =>
      match split_two_sentences (build_expected_reference_answer spec) with
      | none => some "Internal error: expected reference split failed".data
      | some (expS1, expS2) =>
        if !(normalize_for_compare gotS1 == normalize_for_compare expS1) ||
           !(normalize_for_compare gotS2 == normalize_for_compare expS2) then
          some "reference_answer_zh did not apply templates exactly to P1/P2/P3".data
        else
          match validate_sentence spec.step1 gotS1 spec.props.p1 spec.props.p2 with
          | some e => some ("reference sentence1 invalid: ".data ++ e)
          | none =>
            match validate_sentence spec.step2 gotS2 spec.props.p2 spec.props.p3 with
            | some e => some ("reference sentence2 invalid: ".data ++ e)
            | none => none

/-- The straight-line scoring tail of `evaluate_core_plus_core_answer`,
shared by the two-sentence and fallback branches: `answer` is the trimmed
answer, `s1`/`s2` the two sentences (or the fallback), `dSplit` the
format deduction (0 or 40) and `notes0` the notes collected so far. -/
def scoreAndNotes (spec : CorePlusSpec) (answer s1 s2 : Str) (dSplit : Int)
    (notes0 : List Str) : Bool × Int × Str :=
  let v1 := validate_sentence_pattern_only spec.step1 s1
  let v2 := validate_sentence_pattern_only spec.step2 s2
  let seedPhrase := trim_sentence_trailing_punct spec.seed
  let seedMiss := !seedPhrase.isEmpty && !containsL answer seedPhrase
  let b1 := contains_any_marker s1 spec.step2.strong_markers
  let b2 := contains_any_marker s2 spec.step1.strong_markers
  let score0 : Int := 100 - dSplit - (if v1.isSome then 25 else 0)
    - (if v2.isSome then 25 else 0) - (if seedMiss then 15 else 0)
    - (if b1 then 8 else 0) - (if b2 then 8 else 0)
  let notes := notes0
    ++ (match v1 with
        | some e => ["第1句不符合要求：".data ++ e]
        | none => [])
    ++ (match v2 with
        | some e => ["第2句不符合要求：".data ++ e]
        | none => [])
    ++ (if seedMiss then ["内容未围绕种子短语".data] else [])
    ++ (if b1 then ["第1句混入了第2步连接标记".data] else [])
    ++ (if b2 then ["第2句混入了第1步连接标记".data] else [])
  let score1 := if score0 < 0 then 0 else score0
  let score := if score1 > 100 then 100 else score1
  let correct := decide ((60 : Int) ≤ score)
  let explanation :=
    if notes.isEmpty then "结构正确：两句都满足连接词模式，并围绕种子短语展开。".data
    else List.intercalate "；".data notes ++ "。".data
  (correct, score, explanation)

/-- Embeds `evaluate_core_plus_core_answer` from `coreplus.rs`. -/
def evaluate_core_plus_core_answer (spec : CorePlusSpec) (userAnswer : Str) :
    Bool × Int × Str :=
  let answer := rustTrim userAnswer
  if answer.isEmpty then (false, 0, "答案为空。请按要求只写两句。".data)
  else
    match split_two_sentences answer with
    | some (a, b) => scoreAndNotes spec answer a b 0 []
    | none =>
      scoreAndNotes spec answer answer answer 40
        ["格式错误：需要正好两句（用句号分隔）".data]

/-!  ## Basic lemmas about the string primitives  -/

theorem isPrefOf_append (n u z : Str) (h : isPrefOf n u = true) :
    isPrefOf n (u ++ z) = true := by
  induction n generalizing u with
  | nil => simp [isPrefOf]
  | cons a as ih =>
    cases u with
    | nil => simp [isPrefOf] at h
    | cons b bs =>
      simp only [isPrefOf, Bool.and_eq_true] at h ⊢
      exact ⟨h.1, ih bs h.2⟩

theorem findSubFrom_nil_isSome (n z : Str) (i : Nat) :
    (findSubFrom n [] i).isSome = true → (findSubFrom n z i).isSome = true := by
  intro hi
  cases n with
  | nil =>
    cases z with
    | nil => exact hi
    | cons c t => simp [findSubFrom, isPrefOf]
  | cons a as => simp [findSubFrom, isPrefOf] at hi

theorem findSubFrom_append_isSome (n z : Str) :
    ∀ (h : Str) (i : Nat), (findSubFrom n h i).isSome = true →
      (findSubFrom n (h ++ z) i).isSome = true := by
  intro h
  induction h with
  | nil =>
    intro i hi
    exact findSubFrom_nil_isSome n z i hi
  | cons c t ih =>
    intro i hi
    simp only [List.cons_append, findSubFrom]
    cases hp2 : isPrefOf n (c :: (t ++ z)) with
    | true => rfl
    | false =>
      simp only [Bool.false_eq_true, if_false]
      simp only [findSubFrom] at hi
      cases hp : isPrefOf n (c :: t) with
      | true => exact absurd (isPrefOf_append n (c :: t) z hp) (by simp [hp2])
      | false =>
        rw [hp] at hi
        simp only [Bool.false_eq_true, if_false] at hi
        exact ih (i + 1) hi

theorem containsL_append (x z n : Str) (h : containsL x n = true) :
    containsL (x ++ z) n = true :=
  findSubFrom_append_isSome n z x 0 h

theorem splitChar_of_no_sep (sep : Char) (l : Str)
    (h : ∀ c ∈ l, (c == sep) = false) : splitChar sep l = [l] := by
  induction l with
  | nil => simp [splitChar]
  | cons c t ih =>
    have hc : (c == sep) = false := h c (by simp)
    have ht : splitChar sep t = [t] := ih (fun d hd => h d (by simp [hd]))
    simp [splitChar, hc, ht]

theorem splitChar_append_sep (sep : Char) (x y : Str)
    (hx : ∀ c ∈ x, (c == sep) = false) (hy : ∀ c ∈ y, (c == sep) = false) :
    splitChar sep (x ++ sep :: y) = [x, y] := by
  induction x with
  | nil => simp [splitChar, splitChar_of_no_sep sep y hy]
  | cons c t ih =>
    have hc : (c == sep) = false := hx c (by simp)
    have ht := ih (fun d hd => hx d (by simp [hd]))
    simp [splitChar, hc, ht]

theorem headD_append (l m : Str) (d : Char) (h : l ≠ []) :
    (l ++ m).headD d = l.headD d := by
  cases l with
  | nil => exact absurd rfl h
  | cons c t => simp

theorem trimStartL_eq_self (x : Str)
    (hh : isRustWhitespace (x.headD ' ') = false) : trimStartL x = x := by
  cases x with
  | nil => simp [trimStartL]
  | cons c t =>
    simp only [List.headD_cons] at hh
    simp [trimStartL, List.dropWhile_cons, hh]

theorem trimEndL_eq_self (w : Str)
    (hh : isRustWhitespace (w.reverse.headD ' ') = false) : trimEndL w = w := by
  cases hr : w.reverse with
  | nil =>
    have hw : w = [] := by simpa using congrArg List.reverse hr
    simp [trimEndL, hw]
  | cons c t =>
    rw [hr] at hh
    simp only [List.headD_cons] at hh
    have : w = (c :: t).reverse := by rw [← hr, List.reverse_reverse]
    rw [trimEndL, hr, List.dropWhile_cons, hh]
    simpa using this.symm

theorem rustTrim_eq_self (x : Str)
    (hh : isRustWhitespace (x.headD ' ') = false)
    (ht : isRustWhitespace (x.reverse.headD ' ') = false) : rustTrim x = x := by
  rw [rustTrim, trimStartL_eq_self x hh, trimEndL_eq_self x ht]

theorem dropTrailingTerm_eq_self (s : Str)
    (hh : isTerminalPunct (s.reverse.headD '。') = false) : dropTrailingTerm s = s := by
  cases hr : s.reverse with
  | nil =>
    have hs : s = [] := by simpa using congrArg List.reverse hr
    simp [dropTrailingTerm, hs]
  | cons c t =>
    rw [hr] at hh
    simp only [List.headD_cons] at hh
    have : s = (c :: t).reverse := by rw [← hr, List.reverse_reverse]
    rw [dropTrailingTerm, hr, List.dropWhile_cons, hh]
    simpa using this.symm

theorem normCh_eq_self (c : Char) (h : (normCh c == '。') = false) : normCh c = c := by
  cases h2 : (c == '!' || c == '！' || c == '?' || c == '？') with
  | false => simp [normCh, h2]
  | true =>
    exfalso
    rw [normCh, h2] at h
    simp at h

theorem map_normCh_eq_self (l : Str) (h : ∀ c ∈ l, (normCh c == '。') = false) :
    l.map normCh = l := by
  induction l with
  | nil => rfl
  | cons c t ih =>
    have hc := normCh_eq_self c (h c (by simp))
    have ht := ih (fun d hd => h d (by simp [hd]))
    simp [hc, ht]

theorem normCh_sep_ne (c : Char) (h : (normCh c == '。') = false) :
    (c == '。') = false := by
  cases hc : (c == '。') with
  | false => rfl
  | true =>
    have : c = '。' := by simpa using hc
    subst this
    simpa [normCh] using h

theorem reverse_join_headD (x y : Str) (hyne : y ≠ []) (d : Char) :
    ((x ++ '。' :: y).reverse).headD d = y.reverse.headD d := by
  have h1 : y.reverse ≠ [] := by simpa using hyne
  rw [List.reverse_append, List.reverse_cons]
  rw [headD_append _ _ _ (by simp [h1]), headD_append _ _ _ h1]

theorem rustTrim_join (x y : Str) (hxne : x ≠ []) (hyne : y ≠ [])
    (hxh : isRustWhitespace (x.headD ' ') = false)
    (hyl : isRustWhitespace (y.reverse.headD ' ') = false) :
    rustTrim (x ++ '。' :: y) = x ++ '。' :: y := by
  apply rustTrim_eq_self
  · cases x with
    | nil => exact absurd rfl hxne
    | cons c t => simpa using hxh
  · rw [reverse_join_headD x y hyne]
    exact hyl

theorem split_sep (x y : Str)
    (hxne : x ≠ []) (hyne : y ≠ [])
    (hxh : isRustWhitespace (x.headD ' ') = false)
    (hxl : isRustWhitespace (x.reverse.headD ' ') = false)
    (hyh : isRustWhitespace (y.headD ' ') = false)
    (hyl : isRustWhitespace (y.reverse.headD ' ') = false)
    (hyterm : isTerminalPunct (y.reverse.headD '。') = false)
    (hxsep : ∀ c ∈ x, (normCh c == '。') = false)
    (hysep : ∀ c ∈ y, (normCh c == '。') = false) :
    split_two_sentences (x ++ '。' :: y) = some (x, y) := by
  have hmap : (x ++ '。' :: y).map normCh = x ++ '。' :: y := by
    rw [List.map_append, List.map_cons]
    rw [map_normCh_eq_self x hxsep, map_normCh_eq_self y hysep]
    rfl
  have hdrop : dropTrailingTerm (x ++ '。' :: y) = x ++ '。' :: y := by
    apply dropTrailingTerm_eq_self
    rw [reverse_join_headD x y hyne]
    exact hyterm
  have htrim := rustTrim_join x y hxne hyne hxh hyl
  have hsplit : splitChar '。' (x ++ '。' :: y) = [x, y] :=
    splitChar_append_sep '。' x y
      (fun c hc => normCh_sep_ne c (hxsep c hc))
      (fun c hc => normCh_sep_ne c (hysep c hc))
  have hxe : x.isEmpty = false := by cases x with
    | nil => exact absurd rfl hxne
    | cons c t => rfl
  have hye : y.isEmpty = false := by cases y with
    | nil => exact absurd rfl hyne
    | cons c t => rfl
  have hxt : rustTrim x = x := rustTrim_eq_self x hxh hxl
  have hyt : rustTrim y = y := rustTrim_eq_self y hyh hyl
  unfold split_two_sentences
  simp only [htrim, hmap, hdrop, hsplit, List.map_cons, List.map_nil, hxt, hyt]
  simp [List.filter, hxe, hye]

theorem ne_nil_of_isEmpty_false (s : Str) (h : s.isEmpty = false) : s ≠ [] := by
  cases s with
  | nil => simp at h
  | cons c t => simp

theorem append_sep_isEmpty (x y : Str) (hx : x ≠ []) :
    (x ++ '。' :: y).isEmpty = false := by
  cases x with
  | nil => exact absurd rfl hx
  | cons c t => rfl

/-!  ## Per-sentence check for the round-trip over the static catalogs  -/

/-- All facts about one rendered, punctuation-trimmed reference sentence
`s` (built from pattern `q` and props `a`, `b`) that the round-trip and
echo-validation arguments need: `s` is non-empty, has no whitespace at
either edge, does not end in terminal punctuation, contains no character
that normalizes to the ideographic full stop, carries every strong marker
and matches the structural expression of `q`, and contains `a`, `b` and
the punctuation-trimmed `a` as substrings. -/
def sentenceOK (q : PatternDef) (a b : Str) : Bool :=
  let s := trim_sentence_trailing_punct (render_template_ab q.tpl a b)
  !s.isEmpty &&
  !isRustWhitespace (s.headD ' ') &&
  !isRustWhitespace (s.reverse.headD ' ') &&
  !isTerminalPunct (s.reverse.headD '。') &&
  s.all (fun c => !(normCh c == '。')) &&
  (firstMissingStrong q.strong_markers s).isNone &&
  simple_regex_like_match q.check_regex s &&
  containsL s a &&
  containsL s b &&
  containsL s (trim_sentence_trailing_punct a)

theorem scoreAndNotes_pass (spec : CorePlusSpec) (answer s1 s2 : Str)
    (notes0 : List Str)
    (hv1 : validate_sentence_pattern_only spec.step1 s1 = none)
    (hv2 : validate_sentence_pattern_only spec.step2 s2 = none)
    (hseed : (!(trim_sentence_trailing_punct spec.seed).isEmpty &&
      !containsL answer (trim_sentence_trailing_punct spec.seed)) = false) :
    (scoreAndNotes spec answer s1 s2 0 notes0).1 = true ∧
    60 ≤ (scoreAndNotes spec answer s1 s2 0 notes0).2.1 := by
  cases hb1 : contains_any_marker s1 spec.step2.strong_markers with
  | false =>
    cases hb2 : contains_any_marker s2 spec.step1.strong_markers with
    | false => simp [scoreAndNotes, hv1, hv2, hseed, hb1, hb2]
    | true => simp [scoreAndNotes, hv1, hv2, hseed, hb1, hb2]
  | true =>
    cases hb2 : contains_any_marker s2 spec.step1.strong_markers with
    | false => simp [scoreAndNotes, hv1, hv2, hseed, hb1, hb2]
    | true => simp [scoreAndNotes, hv1, hv2, hseed, hb1, hb2]

/-- Unpacked form of `sentenceOK`. -/
theorem sentenceOK_spec (q : PatternDef) (a b : Str)
    (h : sentenceOK q a b = true) :
    let s := trim_sentence_trailing_punct (render_template_ab q.tpl a b)
    s.isEmpty = false ∧
    isRustWhitespace (s.headD ' ') = false ∧
    isRustWhitespace (s.reverse.headD ' ') = false ∧
    isTerminalPunct (s.reverse.headD '。') = false ∧
    (∀ c ∈ s, (normCh c == '。') = false) ∧
    firstMissingStrong q.strong_markers s = none ∧
    simple_regex_like_match q.check_regex s = true ∧
    containsL s a = true ∧
    containsL s b = true ∧
    containsL s (trim_sentence_trailing_punct a) = true := by
  simp only [sentenceOK, Bool.and_eq_true, Bool.not_eq_true',
    List.all_eq_true, Option.isNone_iff_eq_none] at h
  obtain ⟨⟨⟨⟨⟨⟨⟨⟨⟨e1, e2⟩, e3⟩, e4⟩, e5⟩, e6⟩, e7⟩, e8⟩, e9⟩, e10⟩ := h
  exact ⟨e1, e2, e3, e4, fun c hc => by simpa using e5 c hc, e6, e7, e8, e9, e10⟩

theorem validate_pattern_only_none (step : CorePlusSpecStep) (s : Str)
    (hm : firstMissingStrong step.strong_markers s = none)
    (hr : simple_regex_like_match step.check_regex s = true) :
    validate_sentence_pattern_only step s = none := by
  simp [validate_sentence_pattern_only, hm, hr]

theorem validate_sentence_none (step : CorePlusSpecStep) (s a b : Str)
    (ha : containsL s a = true) (hb : containsL s b = true)
    (hm : firstMissingStrong step.strong_markers s = none)
    (hr : simple_regex_like_match step.check_regex s = true) :
    validate_sentence step s a b = none := by
  simp [validate_sentence, ha, hb, hm, hr]

/-- Core glue: if both rendered sentences of `mkSpec ch q1 q2 sc` pass
`sentenceOK`, the deterministic reference answer round-trips through the
scorer with a passing score, and the verbatim echo passes the strict
validator. -/
theorem roundTrip_of_sentenceOK (ch : ChainPatternDef) (q1 q2 : PatternDef)
    (sc : SceneDef)
    (h1 : sentenceOK q1 sc.p1 sc.p2 = true)
    (h2 : sentenceOK q2 sc.p2 sc.p3 = true)
    (item : CorePlusGeneratedItem)
    (his : item.seed_zh = (mkSpec ch q1 q2 sc).seed)
    (hir : item.reference_answer_zh =
      build_expected_reference_answer (mkSpec ch q1 q2 sc)) :
    (evaluate_core_plus_core_answer (mkSpec ch q1 q2 sc)
      (build_expected_reference_answer (mkSpec ch q1 q2 sc))).1 = true ∧
    60 ≤ (evaluate_core_plus_core_answer (mkSpec ch q1 q2 sc)
      (build_expected_reference_answer (mkSpec ch q1 q2 sc))).2.1 ∧
    validate_generated_item (mkSpec ch q1 q2 sc) item = none := by
  obtain ⟨e1, e2, e3, e4, e5, e6, e7, e8, e9, e10⟩ := sentenceOK_spec q1 sc.p1 sc.p2 h1
  obtain ⟨f1, f2, f3, f4, f5, f6, f7, f8, f9, f10⟩ := sentenceOK_spec q2 sc.p2 sc.p3 h2
  set x := trim_sentence_trailing_punct (render_template_ab q1.tpl sc.p1 sc.p2) with hxdef
  set y := trim_sentence_trailing_punct (render_template_ab q2.tpl sc.p2 sc.p3) with hydef
  have hxne : x ≠ [] := ne_nil_of_isEmpty_false x e1
  have hyne : y ≠ [] := ne_nil_of_isEmpty_false y f1
  have href : build_expected_reference_answer (mkSpec ch q1 q2 sc) = x ++ '。' :: y := by
    simp [build_expected_reference_answer, mkSpec, to_spec_step, hxdef, hydef]
  have hsplit : split_two_sentences (x ++ '。' :: y) = some (x, y) :=
    split_sep x y hxne hyne e2 e3 f2 f3 f4 e5 f5
  have htrim : rustTrim (x ++ '。' :: y) = x ++ '。' :: y :=
    rustTrim_join x y hxne hyne e2 f3
  have hem : (x ++ '。' :: y).isEmpty = false := append_sep_isEmpty x y hxne
  have hv1 : validate_sentence_pattern_only (mkSpec ch q1 q2 sc).step1 x = none :=
    validate_pattern_only_none _ x e6 e7
  have hv2 : validate_sentence_pattern_only (mkSpec ch q1 q2 sc).step2 y = none :=
    validate_pattern_only_none _ y f6 f7
  have hseedc : containsL (x ++ '。' :: y)
      (trim_sentence_trailing_punct (mkSpec ch q1 q2 sc).seed) = true := by
    have : (mkSpec ch q1 q2 sc).seed = sc.p1 := rfl
    rw [this]
    exact containsL_append x ('。' :: y) _ e10
  have hseed : (!(trim_sentence_trailing_punct (mkSpec ch q1 q2 sc).seed).isEmpty &&
      !containsL (x ++ '。' :: y)
        (trim_sentence_trailing_punct (mkSpec ch q1 q2 sc).seed)) = false := by
    rw [hseedc]
    simp
  have heval : evaluate_core_plus_core_answer (mkSpec ch q1 q2 sc)
      (build_expected_reference_answer (mkSpec ch q1 q2 sc)) =
      scoreAndNotes (mkSpec ch q1 q2 sc) (x ++ '。' :: y) x y 0 [] := by
    rw [href]
    unfold evaluate_core_plus_core_answer
    simp only [htrim, hem, hsplit]
    rfl
  have hpass := scoreAndNotes_pass (mkSpec ch q1 q2 sc) (x ++ '。' :: y) x y [] hv1 hv2 hseed
  refine ⟨by rw [heval]; exact hpass.1, by rw [heval]; exact hpass.2, ?_⟩
  have hvs1 : validate_sentence (mkSpec ch q1 q2 sc).step1 x
      (mkSpec ch q1 q2 sc).props.p1 (mkSpec ch q1 q2 sc).props.p2 = none :=
    validate_sentence_none _ x _ _ e8 e9 e6 e7
  have hvs2 : validate_sentence (mkSpec ch q1 q2 sc).step2 y
      (mkSpec ch q1 q2 sc).props.p2 (mkSpec ch q1 q2 sc).props.p3 = none :=
    validate_sentence_none _ y _ _ f8 f9 f6 f7
  unfold validate_generated_item
  rw [his, hir, href]
  simp only [beq_self_eq_true, Bool.not_true, Bool.false_eq_true, if_false, hsplit,
    Bool.or_self, hvs1, hvs2]

def dummyChain : ChainPatternDef := ⟨[], [], [], []⟩

/-- For one chain, every step-1 pattern paired with every scene of the
chain's schema yields a `sentenceOK` first sentence, and likewise for
step-2 patterns and second sentences. -/
def chainPairsOK (ch : ChainPatternDef) : Bool :=
  ((patterns_for_relation ch.step1).all fun q =>
    SCENES.all fun sc => !(sc.schema == ch.scene_schema) || sentenceOK q sc.p1 sc.p2) &&
  ((patterns_for_relation ch.step2).all fun q =>
    SCENES.all fun sc => !(sc.schema == ch.scene_schema) || sentenceOK q sc.p2 sc.p3)

set_option maxRecDepth 100000 in
set_option maxHeartbeats 4000000 in
theorem chainPairsOK_0 : chainPairsOK (CHAIN_PATTERNS.getD 0 dummyChain) = true := by decide

set_option maxRecDepth 100000 in
set_option maxHeartbeats 4000000 in
theorem chainPairsOK_1 : chainPairsOK (CHAIN_PATTERNS.getD 1 dummyChain) = true := by decide

set_option maxRecDepth 100000 in
set_option maxHeartbeats 4000000 in
theorem chainPairsOK_2 : chainPairsOK (CHAIN_PATTERNS.getD 2 dummyChain) = true := by decide

set_option maxRecDepth 100000 in
set_option maxHeartbeats 4000000 in
theorem chainPairsOK_3 : chainPairsOK (CHAIN_PATTERNS.getD 3 dummyChain) = true := by decide

set_option maxRecDepth 100000 in
set_option maxHeartbeats 4000000 in
theorem chainPairsOK_4 : chainPairsOK (CHAIN_PATTERNS.getD 4 dummyChain) = true := by decide

set_option maxRecDepth 100000 in
set_option maxHeartbeats 4000000 in
theorem chainPairsOK_5 : chainPairsOK (CHAIN_PATTERNS.getD 5 dummyChain) = true := by decide

set_option maxRecDepth 100000 in
set_option maxHeartbeats 4000000 in
theorem chainPairsOK_6 : chainPairsOK (CHAIN_PATTERNS.getD 6 dummyChain) = true := by decide

set_option maxRecDepth 100000 in
set_option maxHeartbeats 4000000 in
theorem chainPairsOK_7 : chainPairsOK (CHAIN_PATTERNS.getD 7 dummyChain) = true := by decide

set_option maxRecDepth 100000 in
set_option maxHeartbeats 4000000 in
theorem chainPairsOK_8 : chainPairsOK (CHAIN_PATTERNS.getD 8 dummyChain) = true := by decide

theorem chainPairsOK_of_mem (ch : ChainPatternDef) (h : ch ∈ CHAIN_PATTERNS) :
    chainPairsOK ch = true := by
  simp only [CHAIN_PATTERNS, List.mem_cons, List.not_mem_nil, or_false] at h
  rcases h with h | h | h | h | h | h | h | h | h <;> subst h
  · exact chainPairsOK_0
  · exact chainPairsOK_1
  · exact chainPairsOK_2
  · exact chainPairsOK_3
  · exact chainPairsOK_4
  · exact chainPairsOK_5
  · exact chainPairsOK_6
  · exact chainPairsOK_7
  · exact chainPairsOK_8

theorem sentenceOK_of_mem (ch : ChainPatternDef) (q1 q2 : PatternDef) (sc : SceneDef)
    (hch : ch ∈ CHAIN_PATTERNS)
    (hq1 : q1 ∈ patterns_for_relation ch.step1)
    (hq2 : q2 ∈ patterns_for_relation ch.step2)
    (hsc : sc ∈ SCENES) (hschema : sc.schema = ch.scene_schema) :
    sentenceOK q1 sc.p1 sc.p2 = true ∧ sentenceOK q2 sc.p2 sc.p3 = true := by
  have hall := chainPairsOK_of_mem ch hch
  simp only [chainPairsOK, Bool.and_eq_true, List.all_eq_true] at hall
  obtain ⟨ha, hb⟩ := hall
  have h1 := ha q1 hq1 sc hsc
  have h2 := hb q2 hq2 sc hsc
  rw [hschema] at h1 h2
  simp only [beq_self_eq_true, Bool.not_true, Bool.false_or] at h1 h2
  exact ⟨h1, h2⟩

/-!  ## What the sampler can return  -/

theorem getD_mod_mem {α : Type} (l : List α) (i : Nat) (d : α) (hl : l ≠ []) :
    l.getD (i % l.length) d ∈ l := by
  have hlen : 0 < l.length := List.length_pos.mpr hl
  have hlt : i % l.length < l.length := Nat.mod_lt _ hlen
  rw [List.getD_eq_getElem?_getD, List.getElem?_eq_getElem hlt, Option.getD_some]
  exact List.getElem_mem hlt

/-- The conjunction of all constraints a successful sampling iteration
establishes about its chosen chain, patterns and scene, at target level
`lvl`. -/
def SampleChoice (lvl : Nat) (ch : ChainPatternDef) (q1 q2 : PatternDef)
    (sc : SceneDef) : Prop :=
  ch ∈ CHAIN_PATTERNS ∧ chain_matches_difficulty ch lvl = true ∧
  q1 ∈ patterns_for_relation ch.step1 ∧ q1.level ≤ lvl ∧
  q2 ∈ patterns_for_relation ch.step2 ∧ q2.level ≤ lvl ∧
  sc ∈ SCENES ∧ sc.schema = ch.scene_schema ∧
  scene_matches_difficulty sc.p1 sc.p2 sc.p3 lvl = true ∧
  contains_any sc.p1 (q1.seed_banned ++ q2.seed_banned) = false

theorem tryOnce_some (lvl : Nat) (dr : DrawChoice) (spec : CorePlusSpec)
    (h : tryOnce lvl dr = some spec) :
    ∃ ch q1 q2 sc, SampleChoice lvl ch q1 q2 sc ∧ spec = mkSpec ch q1 q2 sc := by
  unfold tryOnce at h
  rcases hg : CHAIN_PATTERNS.get? (dr.chainIdx % CHAIN_PATTERNS.length) with _ | chain
  · rw [hg] at h
    simp at h
  simp only [hg] at h
  have hchm : chain ∈ CHAIN_PATTERNS := List.get?_mem hg
  cases hc : chain_matches_difficulty chain lvl with
  | false =>
    simp [hc] at h
  | true =>
    simp only [hc, Bool.not_true, Bool.false_eq_true, if_false] at h
    set P1 := (patterns_for_relation chain.step1).filter
      (fun p => decide (p.level ≤ lvl)) with hP1
    set P2 := (patterns_for_relation chain.step2).filter
      (fun p => decide (p.level ≤ lvl)) with hP2
    cases hpe : (P1.isEmpty || P2.isEmpty) with
    | true =>
      rw [hpe] at h
      simp at h
    | false =>
      rw [hpe] at h
      simp only [Bool.false_eq_true, if_false] at h
      have hpe2 := hpe
      rw [Bool.or_eq_false_iff] at hpe2
      have hP1ne : P1 ≠ [] := List.isEmpty_eq_false.mp hpe2.1
      have hP2ne : P2 ≠ [] := List.isEmpty_eq_false.mp hpe2.2
      set q1 := P1.getD (dr.pat1Idx % P1.length) dummyPat with hq1def
      set q2 := P2.getD (dr.pat2Idx % P2.length) dummyPat with hq2def
      have hq1m : q1 ∈ P1 := getD_mod_mem P1 dr.pat1Idx dummyPat hP1ne
      have hq2m : q2 ∈ P2 := getD_mod_mem P2 dr.pat2Idx dummyPat hP2ne
      rw [hP1, List.mem_filter] at hq1m
      rw [hP2, List.mem_filter] at hq2m
      set SP := SCENES.filter (fun s => s.schema == chain.scene_schema) with hSP
      cases hse : SP.isEmpty with
      | true =>
        rw [hse] at h
        simp at h
      | false =>
        rw [hse] at h
        simp only [Bool.false_eq_true, if_false] at h
        have hSPne : SP ≠ [] := List.isEmpty_eq_false.mp hse
        set sc := SP.getD (dr.sceneIdx % SP.length) dummyScene with hscdef
        have hscm : sc ∈ SP := getD_mod_mem SP dr.sceneIdx dummyScene hSPne
        rw [hSP, List.mem_filter] at hscm
        cases hgate : scene_matches_difficulty sc.p1 sc.p2 sc.p3 lvl with
        | false =>
          rw [hgate] at h
          simp at h
        | true =>
          rw [hgate] at h
          simp only [Bool.not_true, Bool.false_eq_true, if_false] at h
          cases hban : contains_any sc.p1 (q1.seed_banned ++ q2.seed_banned) with
          | true =>
            rw [hban] at h
            simp at h
          | false =>
            rw [hban] at h
            simp only [Bool.false_eq_true, if_false, Option.some.injEq] at h
            refine ⟨chain, q1, q2, sc,
              ⟨hchm, hc, hq1m.1, of_decide_eq_true hq1m.2,
                hq2m.1, of_decide_eq_true hq2m.2,
                hscm.1, by simpa using hscm.2, hgate, hban⟩, h.symm⟩

theorem sampleAux_some (lvl : Nat) (draws : List DrawChoice) (spec : CorePlusSpec)
    (h : sampleAux lvl draws = some spec) :
    ∃ ch q1 q2 sc, SampleChoice lvl ch q1 q2 sc ∧ spec = mkSpec ch q1 q2 sc := by
  induction draws with
  | nil => simp [sampleAux] at h
  | cons dr rest ih =>
    rw [sampleAux] at h
    cases ht : tryOnce lvl dr with
    | some s =>
      rw [ht] at h
      simp only [Option.some.injEq] at h
      exact h ▸ tryOnce_some lvl dr s ht
    | none =>
      rw [ht] at h
      exact ih h

/-- Any spec the sampler can return, for any difficulty string and any
sequence of random draws, arises from a constraint-satisfying choice of
chain, patterns and scene. -/
theorem sample_some (difficulty : Str) (draws : List DrawChoice)
    (spec : CorePlusSpec)
    (h : sample_core_plus_core_spec difficulty draws = some spec) :
    ∃ ch q1 q2 sc,
      SampleChoice (difficulty_to_target_level difficulty) ch q1 q2 sc ∧
      spec = mkSpec ch q1 q2 sc :=
  sampleAux_some _ draws spec h

/-- The validator reads only the `seed_zh` and `reference_answer_zh`
fields of the candidate item. -/
theorem validate_item_fields_only (spec : CorePlusSpec)
    (i1 i2 : CorePlusGeneratedItem)
    (hs : i1.seed_zh = i2.seed_zh)
    (hr : i1.reference_answer_zh = i2.reference_answer_zh) :
    validate_generated_item spec i1 = validate_generated_item spec i2 := by
  unfold validate_generated_item
  rw [hs, hr]

def demoSpec : CorePlusSpec :=
  mkSpec (CHAIN_PATTERNS.getD 0 dummyChain) (PATTERNS_CAUSE.getD 0 dummyPat)
    (PATTERNS_RESULT.getD 0 dummyPat) (SCENES.getD 0 dummyScene)

/-- C2: for every Spec the sampler can return — any difficulty string and
any random draws over the static catalogs — evaluating the
deterministically rendered reference answer round-trips: the scorer
passes it and its score is at least 60. -/
theorem C2_sampler_round_trip (difficulty : Str) (draws : List DrawChoice)
    (spec : CorePlusSpec)
    (h : sample_core_plus_core_spec difficulty draws = some spec) :
    (evaluate_core_plus_core_answer spec (build_expected_reference_answer spec)).1 = true ∧
    60 ≤ (evaluate_core_plus_core_answer spec (build_expected_reference_answer spec)).2.1 := by
  obtain ⟨ch, q1, q2, sc, hchoice, hspec⟩ := sample_some difficulty draws spec h
  obtain ⟨hch, _, hq1, _, hq2, _, hsc, hschema, _, _⟩ := hchoice
  obtain ⟨h1, h2⟩ := sentenceOK_of_mem ch q1 q2 sc hch hq1 hq2 hsc hschema
  subst hspec
  have hrt := roundTrip_of_sentenceOK ch q1 q2 sc h1 h2
    ⟨(mkSpec ch q1 q2 sc).seed, [],
      build_expected_reference_answer (mkSpec ch q1 q2 sc), []⟩ rfl rfl
  exact ⟨hrt.1, hrt.2.1⟩

theorem C2_sampler_round_trip_witness :
    (evaluate_core_plus_core_answer demoSpec
      (build_expected_reference_answer demoSpec)).1 = true ∧
    60 ≤ (evaluate_core_plus_core_answer demoSpec
      (build_expected_reference_answer demoSpec)).2.1 :=
  C2_sampler_round_trip "hsk3".data [⟨0, 0, 0, 0⟩] demoSpec (by decide)

/-- C3: for every Spec the sampler can return, the strict validator
accepts the verbatim echo: any candidate item whose seed equals the
spec seed and whose reference answer equals the rendered expected
reference character for character validates Ok. -/
theorem C3_validator_accepts_echo (difficulty : Str) (draws : List DrawChoice)
    (spec : CorePlusSpec) (item : CorePlusGeneratedItem)
    (h : sample_core_plus_core_spec difficulty draws = some spec)
    (hs : item.seed_zh = spec.seed)
    (hr : item.reference_answer_zh = build_expected_reference_answer spec) :
    validate_generated_item spec item = none := by
  obtain ⟨ch, q1, q2, sc, hchoice, hspec⟩ := sample_some difficulty draws spec h
  obtain ⟨hch, _, hq1, _, hq2, _, hsc, hschema, _, _⟩ := hchoice
  obtain ⟨h1, h2⟩ := sentenceOK_of_mem ch q1 q2 sc hch hq1 hq2 hsc hschema
  subst hspec
  exact (roundTrip_of_sentenceOK ch q1 q2 sc h1 h2 item hs hr).2.2

theorem C3_validator_accepts_echo_witness :
    validate_generated_item demoSpec
      ⟨demoSpec.seed, "用连接词改写".data,
        build_expected_reference_answer demoSpec, "meta".data⟩ = none :=
  C3_validator_accepts_echo "hsk3".data [⟨0, 0, 0, 0⟩] demoSpec
    ⟨demoSpec.seed, "用连接词改写".data,
      build_expected_reference_answer demoSpec, "meta".data⟩
    (by decide) rfl rfl

theorem scene_gate_level1 (p1 p2 p3 : Str)
    (h : scene_matches_difficulty p1 p2 p3 1 = true) :
    p1.length ≤ 12 ∧ p2.length ≤ 12 ∧ p3.length ≤ 12 ∧
    p1.length + p2.length + p3.length ≤ 32 ∧
    ∀ t ∈ level3_plus_tokens ++ level2_plus_tokens,
      containsL (p1 ++ p2 ++ p3) t = false := by
  simp only [scene_matches_difficulty, le_refl, if_pos, Bool.and_eq_true,
    Bool.not_eq_true', Bool.or_eq_false_iff, decide_eq_false_iff_not,
    not_lt, List.any_eq_false, Bool.not_eq_true] at h
  obtain ⟨⟨⟨⟨⟨l1, l2⟩, l3⟩, l4⟩, h3⟩, h4⟩ := h
  refine ⟨l1, l2, l3, l4, fun t ht => ?_⟩
  rcases List.mem_append.mp ht with h5 | h5
  · exact h3 t h5
  · exact h4 t h5

/-- C4: every Spec returned by the sampler satisfies the sampled-spec
invariant: both steps' levels are at most the target level derived from
the requesting difficulty, the seed equals P1 and contains no banned
seed token of either chosen pattern, the scene schema equals the
chain's schema, the scene passes the level-scaled complexity gate, and
at target level 1 each scene slot is at most 12 characters, their total
is at most 32, and no banned-vocabulary token of either tier occurs in
the concatenated scene text. -/
theorem C4_sampled_spec_invariant (difficulty : Str) (draws : List DrawChoice)
    (spec : CorePlusSpec)
    (h : sample_core_plus_core_spec difficulty draws = some spec) :
    ∃ ch q1 q2 sc, spec = mkSpec ch q1 q2 sc ∧
      spec.step1.level ≤ difficulty_to_target_level difficulty ∧
      spec.step2.level ≤ difficulty_to_target_level difficulty ∧
      spec.seed = spec.props.p1 ∧
      contains_any spec.seed (q1.seed_banned ++ q2.seed_banned) = false ∧
      spec.scene_schema = ch.scene_schema ∧
      scene_matches_difficulty spec.props.p1 spec.props.p2 spec.props.p3
        (difficulty_to_target_level difficulty) = true ∧
      (difficulty_to_target_level difficulty = 1 →
        spec.props.p1.length ≤ 12 ∧ spec.props.p2.length ≤ 12 ∧
        spec.props.p3.length ≤ 12 ∧
        spec.props.p1.length + spec.props.p2.length + spec.props.p3.length ≤ 32 ∧
        ∀ t ∈ level3_plus_tokens ++ level2_plus_tokens,
          containsL (spec.props.p1 ++ spec.props.p2 ++ spec.props.p3) t = false) := by
  obtain ⟨ch, q1, q2, sc, hchoice, hspec⟩ := sample_some difficulty draws spec h
  obtain ⟨hch, hc, hq1, hl1, hq2, hl2, hsc, hschema, hgate, hban⟩ := hchoice
  subst hspec
  refine ⟨ch, q1, q2, sc, rfl, hl1, hl2, rfl, hban, hschema, hgate, fun hlvl => ?_⟩
  rw [hlvl] at hgate
  exact scene_gate_level1 sc.p1 sc.p2 sc.p3 hgate

theorem C4_sampled_spec_invariant_witness :
    ∃ ch q1 q2 sc,
      (mkSpec (CHAIN_PATTERNS.getD 0 dummyChain) (PATTERNS_CAUSE.getD 0 dummyPat)
        (PATTERNS_RESULT.getD 0 dummyPat) (SCENES.getD 2 dummyScene)) =
          mkSpec ch q1 q2 sc ∧
      (mkSpec (CHAIN_PATTERNS.getD 0 dummyChain) (PATTERNS_CAUSE.getD 0 dummyPat)
        (PATTERNS_RESULT.getD 0 dummyPat) (SCENES.getD 2 dummyScene)).step1.level ≤
        difficulty_to_target_level "hsk1".data ∧
      (mkSpec (CHAIN_PATTERNS.getD 0 dummyChain) (PATTERNS_CAUSE.getD 0 dummyPat)
        (PATTERNS_RESULT.getD 0 dummyPat) (SCENES.getD 2 dummyScene)).step2.level ≤
        difficulty_to_target_level "hsk1".data ∧
      (mkSpec (CHAIN_PATTERNS.getD 0 dummyChain) (PATTERNS_CAUSE.getD 0 dummyPat)
        (PATTERNS_RESULT.getD 0 dummyPat) (SCENES.getD 2 dummyScene)).seed =
        (mkSpec (CHAIN_PATTERNS.getD 0 dummyChain) (PATTERNS_CAUSE.getD 0 dummyPat)
          (PATTERNS_RESULT.getD 0 dummyPat) (SCENES.getD 2 dummyScene)).props.p1 ∧
      contains_any (mkSpec (CHAIN_PATTERNS.getD 0 dummyChain)
          (PATTERNS_CAUSE.getD 0 dummyPat) (PATTERNS_RESULT.getD 0 dummyPat)
          (SCENES.getD 2 dummyScene)).seed (q1.seed_banned ++ q2.seed_banned) = false ∧
      (mkSpec (CHAIN_PATTERNS.getD 0 dummyChain) (PATTERNS_CAUSE.getD 0 dummyPat)
        (PATTERNS_RESULT.getD 0 dummyPat) (SCENES.getD 2 dummyScene)).scene_schema =
        ch.scene_schema ∧
      scene_matches_difficulty
        (mkSpec (CHAIN_PATTERNS.getD 0 dummyChain) (PATTERNS_CAUSE.getD 0 dummyPat)
          (PATTERNS_RESULT.getD 0 dummyPat) (SCENES.getD 2 dummyScene)).props.p1
        (mkSpec (CHAIN_PATTERNS.getD 0 dummyChain) (PATTERNS_CAUSE.getD 0 dummyPat)
          (PATTERNS_RESULT.getD 0 dummyPat) (SCENES.getD 2 dummyScene)).props.p2
        (mkSpec (CHAIN_PATTERNS.getD 0 dummyChain) (PATTERNS_CAUSE.getD 0 dummyPat)
          (PATTERNS_RESULT.getD 0 dummyPat) (SCENES.getD 2 dummyScene)).props.p3
        (difficulty_to_target_level "hsk1".data) = true ∧
      (difficulty_to_target_level "hsk1".data = 1 →
        (mkSpec (CHAIN_PATTERNS.getD 0 dummyChain) (PATTERNS_CAUSE.getD 0 dummyPat)
          (PATTERNS_RESULT.getD 0 dummyPat) (SCENES.getD 2 dummyScene)).props.p1.length ≤ 12 ∧
        (mkSpec (CHAIN_PATTERNS.getD 0 dummyChain) (PATTERNS_CAUSE.getD 0 dummyPat)
          (PATTERNS_RESULT.getD 0 dummyPat) (SCENES.getD 2 dummyScene)).props.p2.length ≤ 12 ∧
        (mkSpec (CHAIN_PATTERNS.getD 0 dummyChain) (PATTERNS_CAUSE.getD 0 dummyPat)
          (PATTERNS_RESULT.getD 0 dummyPat) (SCENES.getD 2 dummyScene)).props.p3.length ≤ 12 ∧
        (mkSpec (CHAIN_PATTERNS.getD 0 dummyChain) (PATTERNS_CAUSE.getD 0 dummyPat)
          (PATTERNS_RESULT.getD 0 dummyPat)
          (SCENES.getD 2 dummyScene)).props.p1.length +
          (mkSpec (CHAIN_PATTERNS.getD 0 dummyChain) (PATTERNS_CAUSE.getD 0 dummyPat)
            (PATTERNS_RESULT.getD 0 dummyPat)
            (SCENES.getD 2 dummyScene)).props.p2.length +
          (mkSpec (CHAIN_PATTERNS.getD 0 dummyChain) (PATTERNS_CAUSE.getD 0 dummyPat)
            (PATTERNS_RESULT.getD 0 dummyPat)
            (SCENES.getD 2 dummyScene)).props.p3.length ≤ 32 ∧
        ∀ t ∈ level3_plus_tokens ++ level2_plus_tokens,
          containsL ((mkSpec (CHAIN_PATTERNS.getD 0 dummyChain)
            (PATTERNS_CAUSE.getD 0 dummyPat) (PATTERNS_RESULT.getD 0 dummyPat)
            (SCENES.getD 2 dummyScene)).props.p1 ++
            (mkSpec (CHAIN_PATTERNS.getD 0 dummyChain) (PATTERNS_CAUSE.getD 0 dummyPat)
              (PATTERNS_RESULT.getD 0 dummyPat) (SCENES.getD 2 dummyScene)).props.p2 ++
            (mkSpec (CHAIN_PATTERNS.getD 0 dummyChain) (PATTERNS_CAUSE.getD 0 dummyPat)
              (PATTERNS_RESULT.getD 0 dummyPat)
              (SCENES.getD 2 dummyScene)).props.p3) t = false) :=
  C4_sampled_spec_invariant "hsk1".data [⟨0, 0, 0, 2⟩]
    (mkSpec (CHAIN_PATTERNS.getD 0 dummyChain) (PATTERNS_CAUSE.getD 0 dummyPat)
      (PATTERNS_RESULT.getD 0 dummyPat) (SCENES.getD 2 dummyScene)) (by decide)

theorem scoreAndNotes_props (spec : CorePlusSpec) (answer s1 s2 : Str)
    (dSplit : Int) (notes0 : List Str) :
    0 ≤ (scoreAndNotes spec answer s1 s2 dSplit notes0).2.1 ∧
    (scoreAndNotes spec answer s1 s2 dSplit notes0).2.1 ≤ 100 ∧
    ((scoreAndNotes spec answer s1 s2 dSplit notes0).1 = true ↔
      60 ≤ (scoreAndNotes spec answer s1 s2 dSplit notes0).2.1) := by
  unfold scoreAndNotes
  simp only [decide_eq_true_eq]
  refine ⟨?_, ?_, by trivial⟩ <;> split_ifs <;> omega

/-- C5: the scorer is total: a trimmed-empty answer yields exactly
`(false, 0, the empty-submission message)`; the returned score always
lies in `[0, 100]` after clamping; and in every case the pass flag holds
iff the score is at least 60. -/
theorem C5_evaluate_total (spec : CorePlusSpec) (answer : Str) :
    ((rustTrim answer).isEmpty = true →
      evaluate_core_plus_core_answer spec answer =
        (false, 0, "答案为空。请按要求只写两句。".data)) ∧
    0 ≤ (evaluate_core_plus_core_answer spec answer).2.1 ∧
    (evaluate_core_plus_core_answer spec answer).2.1 ≤ 100 ∧
    ((evaluate_core_plus_core_answer spec answer).1 = true ↔
      60 ≤ (evaluate_core_plus_core_answer spec answer).2.1) := by
  cases hem : (rustTrim answer).isEmpty with
  | true =>
    have he : evaluate_core_plus_core_answer spec answer =
        (false, 0, "答案为空。请按要求只写两句。".data) := by
      unfold evaluate_core_plus_core_answer
      simp [hem]
    refine ⟨fun _ => he, ?_, ?_, ?_⟩ <;> rw [he] <;> simp
  | false =>
    have hred : evaluate_core_plus_core_answer spec answer =
        match split_two_sentences (rustTrim answer) with
        | some (a, b) => scoreAndNotes spec (rustTrim answer) a b 0 []
        | none =>
          scoreAndNotes spec (rustTrim answer) (rustTrim answer) (rustTrim answer) 40
            ["格式错误：需要正好两句（用句号分隔）".data] := by
      unfold evaluate_core_plus_core_answer
      simp [hem]
    refine ⟨fun hc => absurd hc (by simp [hem]), ?_⟩
    rw [hred]
    cases hsp : split_two_sentences (rustTrim answer) with
    | some v =>
      obtain ⟨a, b⟩ := v
      exact scoreAndNotes_props spec (rustTrim answer) a b 0 []
    | none =>
      exact scoreAndNotes_props spec (rustTrim answer) (rustTrim answer)
        (rustTrim answer) 40 ["格式错误：需要正好两句（用句号分隔）".data]

theorem C5_evaluate_total_witness :
    evaluate_core_plus_core_answer demoSpec "  ".data =
      (false, 0, "答案为空。请按要求只写两句。".data) ∧
    0 ≤ (evaluate_core_plus_core_answer demoSpec "好的。可以".data).2.1 ∧
    (evaluate_core_plus_core_answer demoSpec "好的。可以".data).2.1 ≤ 100 ∧
    ((evaluate_core_plus_core_answer demoSpec "好的。可以".data).1 = true ↔
      60 ≤ (evaluate_core_plus_core_answer demoSpec "好的。可以".data).2.1) :=
  ⟨(C5_evaluate_total demoSpec "  ".data).1 (by decide),
    (C5_evaluate_total demoSpec "好的。可以".data).2⟩

/-!  ## C1: the matcher implements the spec's forward-scan algorithm  -/

theorem scanChunks_true_eq (a w : Bool) (text : Str) :
    ∀ (parts : List Str) (cur : Nat),
      scanChunks a w text parts cur true cur =
        specCursorScan text (parts.filter (fun c => !c.isEmpty)) cur := by
  intro parts
  induction parts with
  | nil => intro cur; rfl
  | cons part rest ih =>
    intro cur
    cases hpe : part.isEmpty with
    | true =>
      simp only [scanChunks, hpe, if_true, List.filter, Bool.not_true]
      exact ih cur
    | false =>
      simp only [scanChunks, hpe, Bool.false_eq_true, if_false, Bool.not_true,
        Bool.false_and, List.filter, Bool.not_false]
      cases hf : findSubFrom part (text.drop cur) cur with
      | some pos =>
        simp only [hf, specCursorScan]
        exact ih (pos + part.length)
      | none => simp [hf, specCursorScan]

theorem scanChunks_false_eq (a w : Bool) (text : Str) :
    ∀ (parts : List Str) (cur : Nat),
      scanChunks a w text parts cur false cur =
        match parts.filter (fun c => !c.isEmpty) with
        | [] => some cur
        | first :: rest =>
          match (if a && !w then
                   (if isPrefOf first (text.drop cur) then some (cur + first.length)
                    else none)
                 else
                   match findSubFrom first (text.drop cur) cur with
                   | some pos => some (pos + first.length)
                   | none => none) with
          | none => none
          | some c2 => specCursorScan text rest c2 := by
  intro parts
  induction parts with
  | nil => intro cur; rfl
  | cons part rest ih =>
    intro cur
    cases hpe : part.isEmpty with
    | true =>
      simp only [scanChunks, hpe, if_true, List.filter, Bool.not_true]
      exact ih cur
    | false =>
      simp only [scanChunks, hpe, Bool.false_eq_true, if_false, Bool.not_false,
        Bool.true_and, List.filter]
      cases ha : (a && !w) with
      | true =>
        simp only [ha, if_true]
        cases hp : isPrefOf part (text.drop cur) with
        | true =>
          simp only [hp, if_true]
          exact scanChunks_true_eq a w text rest (cur + part.length)
        | false => simp [hp]
      | false =>
        simp only [ha, Bool.false_eq_true, if_false]
        cases hf : findSubFrom part (text.drop cur) cur with
        | some pos =>
          simp only [hf]
          exact scanChunks_true_eq a w text rest (pos + part.length)
        | none => simp [hf]

theorem filter_nonempty_nil_iff (l : List Str) :
    l.filter (fun c => !c.isEmpty) = [] ↔ l.all (fun x => x.isEmpty) = true := by
  rw [List.filter_eq_nil_iff, List.all_eq_true]
  constructor
  · intro h x hx
    have := h x hx
    simpa using this
  · intro h x hx
    simp [h x hx]

/-- Generalized tail of the two matchers, after anchor stripping and
chunk splitting: the code's scan over all chunks (with the
first-literal-seen flag) agrees with the spec's scan over the non-empty
chunks. -/
theorem matchTail_eq (aS aE wS wE : Bool) (text : Str) (parts : List Str) :
    (if parts.all (fun x => x.isEmpty) then !text.isEmpty
     else
       match scanChunks aS wS text parts 0 false 0 with
       | none => false
       | some lastEnd => if aE && !wE then lastEnd == text.length else true) =
    (match parts.filter (fun c => !c.isEmpty) with
     | [] => !text.isEmpty
     | first :: rest =>
       let afterFirst :=
         if aS && !wS then
           if isPrefOf first text then some first.length else none
         else
           match findSubFrom first text 0 with
           | some pos => some (pos + first.length)
           | none => none
       match afterFirst with
       | none => false
       | some cursor =>
         match specCursorScan text rest cursor with
         | none => false
         | some cEnd => if aE && !wE then cEnd == text.length else true) := by
  cases hfil : parts.filter (fun c => !c.isEmpty) with
  | nil =>
    have hall := (filter_nonempty_nil_iff parts).mp hfil
    rw [hall]
    rfl
  | cons first rest =>
    have hall : parts.all (fun x => x.isEmpty) = false := by
      cases hq : parts.all (fun x => x.isEmpty) with
      | false => rfl
      | true =>
        rw [(filter_nonempty_nil_iff parts).mpr hq] at hfil
        exact absurd hfil (by simp)
    rw [hall]
    simp only [Bool.false_eq_true, if_false]
    rw [scanChunks_false_eq, hfil]
    simp only [List.drop_zero, Nat.zero_add]
    cases hE : (if (aS && !wS) = true then
        if isPrefOf first text = true then some first.length else none
      else
        match findSubFrom first text 0 with
        | some pos => some (pos + first.length)
        | none => none) with
    | none => simp [hE]
    | some c2 => simp only [hE]

/-- The embedded matcher agrees with the spec-modelled forward-scan
matcher on every pattern and every candidate text. -/
theorem matcher_refines_spec (pattern text : Str) :
    simple_regex_like_match pattern text = specStructMatch pattern text := by
  unfold simple_regex_like_match specStructMatch
  exact matchTail_eq _ _ _ _ text _

/-- C1: the structural matcher implements exactly the described
forward-scan algorithm (it agrees with the spec-modelled matcher on all
inputs), and on the concrete examples the pattern `^因为.+，所以.+$`
accepts `因为下雨，所以我没去` and rejects both `下雨所以我没去` and
`因为下雨`. -/
theorem C1_structural_matcher :
    (∀ pattern text : Str,
      simple_regex_like_match pattern text = specStructMatch pattern text) ∧
    simple_regex_like_match "^因为.+，所以.+$".data "因为下雨，所以我没去".data = true ∧
    simple_regex_like_match "^因为.+，所以.+$".data "下雨所以我没去".data = false ∧
    simple_regex_like_match "^因为.+，所以.+$".data "因为下雨".data = false :=
  ⟨matcher_refines_spec, by decide, by decide, by decide⟩

/-!  ## C6: trailing-punctuation stripping removes the whole trailing run  -/

theorem term_not_ws (c : Char) (h : isTerminalPunct c = true) :
    isRustWhitespace c = false := by
  simp only [isTerminalPunct, Bool.or_eq_true, beq_iff_eq] at h
  rcases h with ((((h | h) | h) | h) | h) | h <;> subst h <;> decide

theorem term_normCh (c : Char) (h : isTerminalPunct c = true) :
    isTerminalPunct (normCh c) = true := by
  cases h2 : (c == '!' || c == '！' || c == '?' || c == '？') with
  | true =>
    have : normCh c = '。' := by simp [normCh, h2]
    rw [this]
    decide
  | false =>
    have : normCh c = c := by simp [normCh, h2]
    rw [this]
    exact h

theorem trimStartL_append_char (s : Str) (c : Char)
    (h : isRustWhitespace c = false) :
    trimStartL (s ++ [c]) = trimStartL s ++ [c] := by
  induction s with
  | nil => simp [trimStartL, List.dropWhile, h]
  | cons a t ih =>
    simp only [List.cons_append, trimStartL, List.dropWhile_cons]
    cases ha : isRustWhitespace a with
    | true => simpa [ha] using ih
    | false => simp [ha]

theorem trimEndL_append_char (u : Str) (c : Char)
    (h : isRustWhitespace c = false) : trimEndL (u ++ [c]) = u ++ [c] := by
  apply trimEndL_eq_self
  rw [List.reverse_append]
  simpa using h

theorem rustTrim_append_char (s : Str) (c : Char)
    (h : isRustWhitespace c = false) :
    rustTrim (s ++ [c]) = trimStartL s ++ [c] := by
  rw [rustTrim, trimStartL_append_char s c h, trimEndL_append_char _ c h]

theorem dropTrailing_append_char (u : Str) (c : Char)
    (h : isTerminalPunct c = true) :
    dropTrailingTerm (u ++ [c]) = dropTrailingTerm u := by
  simp [dropTrailingTerm, List.reverse_append, List.dropWhile_cons, h]

/-- C6 counterexample: the renderer's punctuation strip removes the whole
trailing run, not exactly one mark — on `好。。` it returns `好`, while
removing exactly one mark would return `好。`. -/
theorem C6_counterexample_strip_all :
    trim_sentence_trailing_punct "好。。".data = "好".data ∧
    ¬ trim_sentence_trailing_punct "好。。".data = "好。".data := by
  constructor
  · decide
  · decide

/-- C6 amended: both the renderer's sentence-punctuation strip and the
two-sentence split remove the entire maximal trailing run of terminal
punctuation: appending one more terminal mark to a text that already ends
in a terminal mark changes neither function's result. -/
theorem C6_trailing_strip_amended (s : Str) (c d : Char)
    (hc : isTerminalPunct c = true) (hd : isTerminalPunct d = true) :
    trim_sentence_trailing_punct (s ++ [c, d]) =
      trim_sentence_trailing_punct (s ++ [c]) ∧
    split_two_sentences (s ++ [c, d]) = split_two_sentences (s ++ [c]) := by
  have hcw := term_not_ws c hc
  have hdw := term_not_ws d hd
  have hsplit2 : s ++ [c, d] = (s ++ [c]) ++ [d] := by simp
  have e1 : rustTrim (s ++ [c, d]) = (trimStartL s ++ [c]) ++ [d] := by
    rw [hsplit2, rustTrim_append_char _ d hdw, trimStartL_append_char s c hcw]
  have e2 : rustTrim (s ++ [c]) = trimStartL s ++ [c] :=
    rustTrim_append_char s c hcw
  constructor
  · unfold trim_sentence_trailing_punct
    rw [e1, e2, dropTrailing_append_char _ d hd, dropTrailing_append_char _ c hc]
  · unfold split_two_sentences
    simp only [e1, e2, List.map_append, List.map_cons, List.map_nil]
    rw [dropTrailing_append_char _ (normCh d) (term_normCh d hd),
      dropTrailing_append_char _ (normCh c) (term_normCh c hc)]

theorem C6_trailing_strip_amended_witness :
    trim_sentence_trailing_punct ("好".data ++ ['。', '!']) =
      trim_sentence_trailing_punct ("好".data ++ ['。']) ∧
    split_two_sentences ("好".data ++ ['。', '!']) =
      split_two_sentences ("好".data ++ ['。']) :=
  C6_trailing_strip_amended "好".data '。' '!' (by decide) (by decide)

/-!  ## C7: difficulty parsing  -/

/-- Mathematical decimal value of a digit string (no 255 bound),
accumulator style, mirroring `decDigits` without the overflow check. -/
def digitsVal : Str → Nat → Option Nat
  | [], acc => some acc
  | c :: t, acc =>
    if isAsciiDigit c then digitsVal t (acc * 10 + (c.toNat - 48)) else none

/-- The unbounded integer denoted by a decimal string with an optional
leading plus sign, when there is one. -/
def numValOf (s : Str) : Option Nat :=
  match s with
  | [] => none
  | c :: rest =>
    if c = '+' then (if rest.isEmpty then none else digitsVal rest 0)
    else digitsVal (c :: rest) 0

/-- Modelled from the spec (§4.1): the difficulty string is a
case-insensitive "hsk<N>" style string whose trailing integer denotes
`n` — its lowercased trim is literally `hsk` followed by an (optionally
plus-signed) decimal numeral of `n`. -/
def HskNum (s : Str) (n : Nat) : Prop :=
  ∃ rest, (rustTrim s).map lowerChar = 'h' :: 's' :: 'k' :: rest ∧
    numValOf rest = some n

theorem decDigits_sound : ∀ (t : Str) (acc n : Nat),
    decDigits t acc = some n → digitsVal t acc = some n := by
  intro t
  induction t with
  | nil => intro acc n h; exact h
  | cons c r ih =>
    intro acc n h
    unfold decDigits at h
    unfold digitsVal
    cases hd : isAsciiDigit c with
    | false => rw [hd] at h; simp at h
    | true =>
      rw [hd] at h
      simp only [if_true] at h ⊢
      cases hb : (acc * 10 + (c.toNat - 48) ≤ 255 : Bool) with
      | false =>
        rw [if_neg (by simpa using hb)] at h
        simp at h
      | true =>
        rw [if_pos (by simpa using hb)] at h
        exact ih _ n h

theorem digitsVal_mono : ∀ (t : Str) (acc n : Nat),
    digitsVal t acc = some n → acc ≤ n := by
  intro t
  induction t with
  | nil =>
    intro acc n h
    simp [digitsVal] at h
    omega
  | cons c r ih =>
    intro acc n h
    unfold digitsVal at h
    cases hd : isAsciiDigit c with
    | false => rw [hd] at h; simp at h
    | true =>
      rw [hd] at h
      simp only [if_true] at h
      have := ih _ n h
      omega

theorem decDigits_complete : ∀ (t : Str) (acc n : Nat),
    digitsVal t acc = some n → n ≤ 255 → decDigits t acc = some n := by
  intro t
  induction t with
  | nil => intro acc n h hb; exact h
  | cons c r ih =>
    intro acc n h hb
    unfold digitsVal at h
    unfold decDigits
    cases hd : isAsciiDigit c with
    | false => rw [hd] at h; simp at h
    | true =>
      rw [hd] at h
      simp only [if_true] at h ⊢
      have hv : acc * 10 + (c.toNat - 48) ≤ n := digitsVal_mono r _ n h
      rw [if_pos (by omega)]
      exact ih _ n h hb

theorem decDigits_le : ∀ (t : Str) (acc n : Nat), acc ≤ 255 →
    decDigits t acc = some n → n ≤ 255 := by
  intro t
  induction t with
  | nil =>
    intro acc n ha h
    simp [decDigits] at h
    omega
  | cons c r ih =>
    intro acc n ha h
    unfold decDigits at h
    cases hd : isAsciiDigit c with
    | false => rw [hd] at h; simp at h
    | true =>
      rw [hd] at h
      simp only [if_true] at h
      cases hb : (acc * 10 + (c.toNat - 48) ≤ 255 : Bool) with
      | false => rw [if_neg (by simpa using hb)] at h; simp at h
      | true =>
        rw [if_pos (by simpa using hb)] at h
        exact ih _ n (by simpa using hb) h

theorem parseU8_sound (s : Str) (n : Nat) (h : parseU8 s = some n) :
    numValOf s = some n := by
  cases s with
  | nil => simp [parseU8] at h
  | cons c rest =>
    simp only [parseU8] at h
    simp only [numValOf]
    by_cases hc : c = '+'
    · rw [if_pos hc] at h
      rw [if_pos hc]
      cases he : rest.isEmpty with
      | true => rw [he] at h; simp at h
      | false =>
        rw [he] at h
        simp only [he, Bool.false_eq_true, if_false]
        exact decDigits_sound rest 0 n h
    · rw [if_neg hc] at h
      rw [if_neg hc]
      exact decDigits_sound _ 0 n h

theorem parseU8_le (s : Str) (n : Nat) (h : parseU8 s = some n) : n ≤ 255 := by
  cases s with
  | nil => simp [parseU8] at h
  | cons c rest =>
    simp only [parseU8] at h
    by_cases hc : c = '+'
    · rw [if_pos hc] at h
      cases he : rest.isEmpty with
      | true => rw [he] at h; simp at h
      | false =>
        rw [he] at h
        simp only [Bool.false_eq_true, if_false] at h
        exact decDigits_le rest 0 n (by omega) h
    · rw [if_neg hc] at h
      exact decDigits_le _ 0 n (by omega) h

theorem parseU8_complete (s : Str) (n : Nat) (h : numValOf s = some n)
    (hb : n ≤ 255) : parseU8 s = some n := by
  cases s with
  | nil => simp [numValOf] at h
  | cons c rest =>
    simp only [numValOf] at h
    simp only [parseU8]
    by_cases hc : c = '+'
    · rw [if_pos hc] at h
      rw [if_pos hc]
      cases he : rest.isEmpty with
      | true => rw [he] at h; simp at h
      | false =>
        rw [he] at h
        simp only [he, Bool.false_eq_true, if_false] at h ⊢
        exact decDigits_complete rest 0 n h hb
    · rw [if_neg hc] at h
      rw [if_neg hc]
      exact decDigits_complete _ 0 n h hb

theorem stripHsk_some (u r : Str) (h : stripHsk u = some r) :
    u = 'h' :: 's' :: 'k' :: r := by
  unfold stripHsk at h
  split at h
  · simpa using h
  · simp at h

theorem dtl_of_parse (s rest : Str) (n : Nat)
    (hr : (rustTrim s).map lowerChar = 'h' :: 's' :: 'k' :: rest)
    (hp : parseU8 rest = some n) :
    difficulty_to_target_level s =
      if n ≤ 2 then 1 else if n ≤ 4 then 2 else 3 := by
  unfold difficulty_to_target_level
  simp only [hr, stripHsk, hp, Option.getD_some]

theorem dtl_parse_none (s rest : Str)
    (hr : (rustTrim s).map lowerChar = 'h' :: 's' :: 'k' :: rest)
    (hp : parseU8 rest = none) : difficulty_to_target_level s = 2 := by
  unfold difficulty_to_target_level
  simp only [hr, stripHsk, hp, Option.getD_none]
  decide

theorem dtl_strip_none (s : Str)
    (hstrip : stripHsk ((rustTrim s).map lowerChar) = none) :
    difficulty_to_target_level s = 2 := by
  unfold difficulty_to_target_level
  simp only [hstrip]
  decide

/-- C7 counterexample: `hsk300` is an "hsk<N>" style string with trailing
integer 300 ≥ 5, so the claim predicts target level 3; the code parses the
suffix as a `u8`, the parse overflows and fails, and the difficulty falls
back to the default target level 2. -/
theorem C7_counterexample_hsk300 :
    HskNum "hsk300".data 300 ∧
    difficulty_to_target_level "hsk300".data = 2 ∧
    ¬ difficulty_to_target_level "hsk300".data = 3 :=
  ⟨⟨"300".data, by decide, by decide⟩, by decide, by decide⟩

/-- C7 amended: difficulty parsing extracts the trailing integer of a
case-insensitive "hsk<N>" string and maps 0–2 to level 1, 3–4 to level 2
and 5 and above to level 3 — but only for integers representable as an
unsigned 8-bit value (at most 255); a trailing integer above 255, like
any string from which no integer can be parsed, falls back to the
default target level 2. -/
theorem C7_difficulty_parsing_amended :
    (∀ s n, HskNum s n → n ≤ 255 →
      difficulty_to_target_level s =
        if n ≤ 2 then 1 else if n ≤ 4 then 2 else 3) ∧
    (∀ s n, HskNum s n → 255 < n → difficulty_to_target_level s = 2) ∧
    (∀ s, (∀ n, ¬ HskNum s n) → difficulty_to_target_level s = 2) := by
  refine ⟨?_, ?_, ?_⟩
  · rintro s n ⟨rest, hr, hv⟩ hb
    exact dtl_of_parse s rest n hr (parseU8_complete rest n hv hb)
  · rintro s n ⟨rest, hr, hv⟩ hb
    cases hp : parseU8 rest with
    | none => exact dtl_parse_none s rest hr hp
    | some m =>
      exfalso
      have hs := parseU8_sound rest m hp
      rw [hv] at hs
      have hmn : n = m := by simpa using hs
      have := parseU8_le rest m hp
      omega
  · intro s hn
    cases hstrip : stripHsk ((rustTrim s).map lowerChar) with
    | none => exact dtl_strip_none s hstrip
    | some rest =>
      cases hp : parseU8 rest with
      | none => exact dtl_parse_none s rest (stripHsk_some _ _ hstrip) hp
      | some m =>
        exact absurd ⟨rest, stripHsk_some _ _ hstrip, parseU8_sound rest m hp⟩
          (hn m)

theorem C7_difficulty_parsing_amended_witness :
    difficulty_to_target_level "HSK1 ".data = 1 ∧
    difficulty_to_target_level "hsk300".data = 2 ∧
    difficulty_to_target_level "garbage".data = 2 := by
  refine ⟨?_, ?_, ?_⟩
  · have h := C7_difficulty_parsing_amended.1 "HSK1 ".data 1
      ⟨"1".data, by decide, by decide⟩ (by decide)
    rw [h]
    decide
  · have h := C7_difficulty_parsing_amended.2.1 "hsk300".data 300
      ⟨"300".data, by decide, by decide⟩ (by decide)
    exact h
  · refine C7_difficulty_parsing_amended.2.2 "garbage".data ?_
    intro n hhsk
    obtain ⟨rest, hr, _⟩ := hhsk
    have : (rustTrim "garbage".data).map lowerChar = "garbage".data := by decide
    rw [this] at hr
    simp at hr

/-!  ## C8: the marker-bleed penalty  -/

theorem scoreAndNotes_score (spec : CorePlusSpec) (answer s1 s2 : Str)
    (dSplit : Int) (notes0 : List Str) :
    (scoreAndNotes spec answer s1 s2 dSplit notes0).2.1 =
      (let s0 : Int := 100 - dSplit
         - (if (validate_sentence_pattern_only spec.step1 s1).isSome then 25 else 0)
         - (if (validate_sentence_pattern_only spec.step2 s2).isSome then 25 else 0)
         - (if (!(trim_sentence_trailing_punct spec.seed).isEmpty &&
              !containsL answer (trim_sentence_trailing_punct spec.seed)) then 15 else 0)
         - (if contains_any_marker s1 spec.step2.strong_markers then 8 else 0)
         - (if contains_any_marker s2 spec.step1.strong_markers then 8 else 0)
       if (if s0 < 0 then (0 : Int) else s0) > 100 then 100
       else if s0 < 0 then 0 else s0) := by
  unfold scoreAndNotes
  cases h1 : (validate_sentence_pattern_only spec.step1 s1) <;>
    cases h2 : (validate_sentence_pattern_only spec.step2 s2) <;>
      simp [h1, h2]

theorem evaluate_nonempty_split (spec : CorePlusSpec) (user s1 s2 : Str)
    (hne : (rustTrim user).isEmpty = false)
    (hs : split_two_sentences (rustTrim user) = some (s1, s2)) :
    evaluate_core_plus_core_answer spec user =
      scoreAndNotes spec (rustTrim user) s1 s2 0 [] := by
  unfold evaluate_core_plus_core_answer
  simp only [hne, Bool.false_eq_true, if_false, hs]

def c8spec : CorePlusSpec :=
  mkSpec (CHAIN_PATTERNS.getD 0 dummyChain) (PATTERNS_CAUSE.getD 4 dummyPat)
    (PATTERNS_RESULT.getD 3 dummyPat) (SCENES.getD 2 dummyScene)

def c8ansA : Str := "由天下雨了，我没去远处。我没去远处，于是我就在附近的小店慢慢逛".data

def c8ansB : Str := "由于是天下雨了，我没去远处。我没去远处，于是我就在附近的小店慢慢逛".data

set_option maxRecDepth 100000 in
set_option maxHeartbeats 4000000 in
/-- C8 counterexample: for the spec pairing the cause pattern 由于…
(strong marker 由于) with the result pattern 于是… (strong marker 于是),
the answer `c8ansA` has a first sentence with no step-2 strong marker and
scores 75; inserting the step-2-only strong marker 于是 into that first
sentence (right after 由, yielding `c8ansB`) accidentally completes the
step-1 marker 由于, so the score rises to 92 — not strictly lower as the
claim requires. -/
theorem C8_counterexample_insertion_raises_score :
    contains_any_marker "由天下雨了，我没去远处".data c8spec.step2.strong_markers
      = false ∧
    "于是".data ∈ c8spec.step2.strong_markers ∧
    ¬ "于是".data ∈ c8spec.step1.strong_markers ∧
    c8ansA = "由".data ++
      "天下雨了，我没去远处。我没去远处，于是我就在附近的小店慢慢逛".data ∧
    c8ansB = "由".data ++ "于是".data ++
      "天下雨了，我没去远处。我没去远处，于是我就在附近的小店慢慢逛".data ∧
    split_two_sentences c8ansA =
      some ("由天下雨了，我没去远处".data,
        "我没去远处，于是我就在附近的小店慢慢逛".data) ∧
    (evaluate_core_plus_core_answer c8spec c8ansA).2.1 = 75 ∧
    (evaluate_core_plus_core_answer c8spec c8ansB).2.1 = 92 ∧
    ¬ (evaluate_core_plus_core_answer c8spec c8ansB).2.1 <
      (evaluate_core_plus_core_answer c8spec c8ansA).2.1 := by
  refine ⟨by decide, by decide, by decide, by decide, by decide, by decide,
    by decide, by decide, by decide⟩

set_option maxRecDepth 100000 in
set_option maxHeartbeats 4000000 in
/-- C8 amended: the marker-bleed penalty is strictly score-lowering only
in isolation — if the two answers split into the same second sentence,
their first sentences leave the step-1 check and the seed check outcomes
unchanged, the original first sentence has no step-2 strong marker while
the modified one does, and the original answer's score is positive, then
the modified answer scores strictly lower. -/
theorem C8_marker_bleed_amended (spec : CorePlusSpec) (a b : Str)
    (s1 s1' s2 : Str)
    (hsa : split_two_sentences (rustTrim a) = some (s1, s2))
    (hsb : split_two_sentences (rustTrim b) = some (s1', s2))
    (hea : (rustTrim a).isEmpty = false)
    (heb : (rustTrim b).isEmpty = false)
    (hv1 : (validate_sentence_pattern_only spec.step1 s1').isSome =
      (validate_sentence_pattern_only spec.step1 s1).isSome)
    (hseed : (!(trim_sentence_trailing_punct spec.seed).isEmpty &&
        !containsL (rustTrim b) (trim_sentence_trailing_punct spec.seed)) =
      (!(trim_sentence_trailing_punct spec.seed).isEmpty &&
        !containsL (rustTrim a) (trim_sentence_trailing_punct spec.seed)))
    (hb1a : contains_any_marker s1 spec.step2.strong_markers = false)
    (hb1b : contains_any_marker s1' spec.step2.strong_markers = true)
    (hpos : 0 < (evaluate_core_plus_core_answer spec a).2.1) :
    (evaluate_core_plus_core_answer spec b).2.1 <
      (evaluate_core_plus_core_answer spec a).2.1 := by
  rw [evaluate_nonempty_split spec a s1 s2 hea hsa] at hpos ⊢
  rw [evaluate_nonempty_split spec b s1' s2 heb hsb]
  rw [scoreAndNotes_score] at hpos
  rw [scoreAndNotes_score, scoreAndNotes_score]
  simp only [hv1, hseed, hb1a, hb1b, if_true, Bool.false_eq_true, if_false] at hpos ⊢
  split_ifs at hpos ⊢ <;> omega

set_option maxRecDepth 100000 in
set_option maxHeartbeats 4000000 in
theorem C8_marker_bleed_amended_witness :
    (evaluate_core_plus_core_answer c8spec
      "由于下雨了，我没去远处于是。我没去远处，于是我就在附近的小店慢慢逛".data).2.1 <
    (evaluate_core_plus_core_answer c8spec
      "由于下雨了，我没去远处。我没去远处，于是我就在附近的小店慢慢逛".data).2.1 :=
  C8_marker_bleed_amended c8spec
    "由于下雨了，我没去远处。我没去远处，于是我就在附近的小店慢慢逛".data
    "由于下雨了，我没去远处于是。我没去远处，于是我就在附近的小店慢慢逛".data
    "由于下雨了，我没去远处".data
    "由于下雨了，我没去远处于是".data
    "我没去远处，于是我就在附近的小店慢慢逛".data
    (by decide) (by decide) (by decide) (by decide) (by decide) (by decide)
    (by decide) (by decide) (by decide)

/-- C9: the strict validator's verdict depends only on the candidate's
`seed_zh` and `reference_answer_zh` fields — two candidates agreeing on
those two fields but differing arbitrarily in `challenge_zh` and `meta`
receive the same result. -/
theorem C9_validator_reads_only_seed_and_reference (spec : CorePlusSpec)
    (i1 i2 : CorePlusGeneratedItem)
    (hs : i1.seed_zh = i2.seed_zh)
    (hr : i1.reference_answer_zh = i2.reference_answer_zh) :
    validate_generated_item spec i1 = validate_generated_item spec i2 :=
  validate_item_fields_only spec i1 i2 hs hr

theorem C9_validator_reads_only_seed_and_reference_witness :
    validate_generated_item demoSpec
      ⟨"种子".data, "挑战甲".data, "参考答案".data, []⟩ =
    validate_generated_item demoSpec
      ⟨"种子".data, "挑战乙".data, "参考答案".data, "其他".data⟩ :=
  C9_validator_reads_only_seed_and_reference demoSpec
    ⟨"种子".data, "挑战甲".data, "参考答案".data, []⟩
    ⟨"种子".data, "挑战乙".data, "参考答案".data, "其他".data⟩ rfl rfl

/-!  ## C10: the ASCII full stop is never a sentence separator  -/

theorem trimStartL_subset (s : Str) : ∀ c ∈ trimStartL s, c ∈ s :=
  fun c hc => (List.dropWhile_sublist isRustWhitespace).subset hc

theorem trimEndL_subset (s : Str) : ∀ c ∈ trimEndL s, c ∈ s := by
  intro c hc
  unfold trimEndL at hc
  have h1 : c ∈ s.reverse.dropWhile isRustWhitespace := by simpa using hc
  have h2 : c ∈ s.reverse := (List.dropWhile_sublist isRustWhitespace).subset h1
  simpa using h2

theorem rustTrim_subset (s : Str) : ∀ c ∈ rustTrim s, c ∈ s :=
  fun c hc => trimStartL_subset s c (trimEndL_subset (trimStartL s) c hc)

theorem dropTrailingTerm_subset (s : Str) : ∀ c ∈ dropTrailingTerm s, c ∈ s := by
  intro c hc
  unfold dropTrailingTerm at hc
  have h1 : c ∈ s.reverse.dropWhile isTerminalPunct := by simpa using hc
  have h2 : c ∈ s.reverse := (List.dropWhile_sublist isTerminalPunct).subset h1
  simpa using h2

theorem split_none_of_no_sep (ans : Str)
    (hno : ∀ c ∈ ans, (normCh c == '。') = false) :
    split_two_sentences ans = none := by
  have hcansep : ∀ d ∈ (rustTrim ans).map normCh, (d == '。') = false := by
    intro d hd
    obtain ⟨c, hc, rfl⟩ := List.mem_map.mp hd
    exact hno c (rustTrim_subset ans c hc)
  have hwsep : ∀ d ∈ rustTrim (dropTrailingTerm ((rustTrim ans).map normCh)),
      (d == '。') = false := fun d hd =>
    hcansep d (dropTrailingTerm_subset _ d (rustTrim_subset _ d hd))
  have hsplit := splitChar_of_no_sep '。' _ hwsep
  unfold split_two_sentences
  simp only [hsplit, List.map_cons, List.map_nil]
  cases he : (rustTrim (rustTrim (dropTrailingTerm
      ((rustTrim ans).map normCh)))).isEmpty with
  | true => simp [List.filter, he]
  | false => simp [List.filter, he]

theorem evaluate_nosplit (spec : CorePlusSpec) (user : Str)
    (hne : (rustTrim user).isEmpty = false)
    (hs : split_two_sentences (rustTrim user) = none) :
    evaluate_core_plus_core_answer spec user =
      scoreAndNotes spec (rustTrim user) (rustTrim user) (rustTrim user) 40
        ["格式错误：需要正好两句（用句号分隔）".data] := by
  unfold evaluate_core_plus_core_answer
  simp only [hne, Bool.false_eq_true, if_false, hs]

/-- C10: the ASCII full stop `.` is never a sentence separator — the
split normalizes `!`, `！`, `?`, `？` to `。` and splits only on `。`,
stripping `.` only from the very end.  Consequently any non-blank answer
containing none of those five separator-producing characters (an internal
`.` is allowed anywhere) fails the two-sentence split, and the scorer
takes the −40 format branch with both fallback sentences equal to the
whole trimmed answer.  Concretely, `今天下雨.我没出门` does not split
while `今天下雨。我没出门` splits into its two sentences. -/
theorem C10_ascii_dot_not_separator (spec : CorePlusSpec) (ans : Str)
    (hno : ∀ c ∈ ans, (normCh c == '。') = false)
    (hne : (rustTrim ans).isEmpty = false) :
    split_two_sentences ans = none ∧
    evaluate_core_plus_core_answer spec ans =
      scoreAndNotes spec (rustTrim ans) (rustTrim ans) (rustTrim ans) 40
        ["格式错误：需要正好两句（用句号分隔）".data] ∧
    split_two_sentences "今天下雨.我没出门".data = none ∧
    split_two_sentences "今天下雨。我没出门".data =
      some ("今天下雨".data, "我没出门".data) := by
  have hno2 : ∀ c ∈ rustTrim ans, (normCh c == '。') = false :=
    fun c hc => hno c (rustTrim_subset ans c hc)
  exact ⟨split_none_of_no_sep ans hno,
    evaluate_nosplit spec ans hne (split_none_of_no_sep (rustTrim ans) hno2),
    by decide, by decide⟩

theorem C10_ascii_dot_not_separator_witness :
    split_two_sentences "今天下雨.我没出门".data = none ∧
    evaluate_core_plus_core_answer demoSpec "今天下雨.我没出门".data =
      scoreAndNotes demoSpec (rustTrim "今天下雨.我没出门".data)
        (rustTrim "今天下雨.我没出门".data) (rustTrim "今天下雨.我没出门".data) 40
        ["格式错误：需要正好两句（用句号分隔）".data] ∧
    split_two_sentences "今天下雨.我没出门".data = none ∧
    split_two_sentences "今天下雨。我没出门".data =
      some ("今天下雨".data, "我没出门".data) :=
  C10_ascii_dot_not_separator demoSpec "今天下雨.我没出门".data
    (by decide) (by decide)
